import Mathlib

/-!
# Verification of the CyberBattleSim_CloudActive action-resolution kernel

Shallow embedding of `src/cyberbattle/simulation/actions.py` (class
`AgentActions` and the defender's `override_firewall_rule`), together with
theorems settling the frozen claims about the kernel.

Conventions of the embedding:
* Python numeric rewards/costs are modelled as `Int` (all constants and the
  arithmetic in scope are integer-valued; Python uses floats only as a carrier).
* Timestamps (`datetime.now()`, `last_reimaging`) are modelled as `Nat` clock
  values, passed explicitly as `now`; only their ordering is used.
* Python exceptions (KeyError, IndexError, ValueError, AttributeError,
  AssertionError, NameError) are modelled as `Except KErr`.
* Python `dict` / `OrderedDict` are association lists (insertion order kept);
  Python `set` fields are duplicate-free lists, with explicit dedup where the
  source builds a `set` from a list.
* The external `boolean.py` algebra: a precondition is an expression tree
  `BExpr`; `expr.subs(mapping).simplify() == TRUE` for a mapping binding every
  symbol of the expression is ground evaluation, embedded as `BExpr.evalWith`.
* `np.random.choice` over the argmax candidates is modelled by an explicit
  tie-breaking parameter `tie : Nat` selecting `candidates[tie % len]`.
-/

/-- Errors standing for the Python exceptions the embedded code can raise. -/
inductive KErr where
  | keyError
  | indexError
  | valueError
  | attributeError
  | assertionFailed
  | nameError
deriving DecidableEq, Repr

/-- List-of-chars test: `pre` is a (contiguous) prefix of `l`. -/
def prefix_of_chars : List Char → List Char → Bool
  | [], _ => true
  | _ :: _, [] => false
  | c :: cs, d :: ds => c = d && prefix_of_chars cs ds

/-- List-of-chars test: `needle` occurs contiguously inside `hay`. -/
def chars_contain (needle : List Char) : List Char → Bool
  | [] => prefix_of_chars needle []
  | d :: ds => prefix_of_chars needle (d :: ds) || chars_contain needle ds

/-- Python's `needle in hay` substring test on strings. -/
def str_contains (hay needle : String) : Bool :=
  chars_contain needle.data hay.data

/-- Lookup in an association list with string keys (Python `dict` access). -/
def assoc_lookup {α : Type} : List (String × α) → String → Option α
  | [], _ => none
  | (k, v) :: rest, key => if k = key then some v else assoc_lookup rest key

/-- Membership in an association list (Python `key in dict`). -/
def assoc_mem {α : Type} (l : List (String × α)) (key : String) : Bool :=
  (assoc_lookup l key).isSome

/-- Update the value at an existing key (Python mutation of a dict entry). -/
def assoc_update {α : Type} : List (String × α) → String → (α → α) → List (String × α)
  | [], _, _ => []
  | (k, v) :: rest, key, f =>
    if k = key then (k, f v) :: rest else (k, v) :: assoc_update rest key f

/-- Keep the first occurrence of each element (Python `set(...)` of a list,
with deterministic order). -/
def dedup_nat : List Nat → List Nat
  | [] => []
  | x :: xs => x :: (dedup_nat xs).filter (fun y => y ≠ x)

/-- Keep the first occurrence of each string. -/
def dedup_str : List String → List String
  | [] => []
  | x :: xs => x :: (dedup_str xs).filter (fun y => y ≠ x)

/-- `list.index(x)` of Python: index of the first occurrence. -/
def index_of_str : List String → String → Option Nat
  | [], _ => none
  | x :: xs, s =>
    if x = s then some 0
    else (index_of_str xs s).map (fun n => n + 1)

/-- Boolean expression over named symbols, the embedding of parsed
`boolean.py` expressions used as vulnerability preconditions
(`AND`/`OR`/`NOT` over tokens). -/
inductive BExpr where
  | sym (s : String)
  | tru
  | fls
  | bnot (e : BExpr)
  | band (a b : BExpr)
  | bor (a b : BExpr)
deriving DecidableEq, Repr

/-- Ground evaluation of an expression under a total symbol assignment: the
embedding of `expr.subs(mapping).simplify() == TRUE` when `mapping` binds every
symbol of `expr` (the evaluator contract: simplification is sound and total on
fully-bound expressions). -/
def BExpr.evalWith (f : String → Bool) : BExpr → Bool
  | .sym s => f s
  | .tru => true
  | .fls => false
  | .bnot e => !(e.evalWith f)
  | .band a b => e_and (a.evalWith f) (b.evalWith f)
  | .bor a b => e_or (a.evalWith f) (b.evalWith f)
where
  e_and (a b : Bool) : Bool := a && b
  e_or (a b : Bool) : Bool := a || b

/-- `expr.get_symbols()`: the symbols of the expression, in syntactic order
(possibly with repetitions; only membership is ever used). -/
def BExpr.symbols : BExpr → List String
  | .sym s => [s]
  | .tru => []
  | .fls => []
  | .bnot e => e.symbols
  | .band a b => a.symbols ++ b.symbols
  | .bor a b => a.symbols ++ b.symbols

/-- `str(expression)` of `boolean.py`: infix rendering with `&`, `|`, `~`.
Only its substrings are ever inspected (`"ip.local" in str(...)`), and the
needle `ip.local` contains no operator character, so any rendering that emits
symbol names verbatim is substring-equivalent to the library's. -/
def BExpr.render : BExpr → String
  | .sym s => s
  | .tru => "TRUE"
  | .fls => "FALSE"
  | .bnot e => "~(" ++ e.render ++ ")"
  | .band a b => "(" ++ a.render ++ "&" ++ b.render ++ ")"
  | .bor a b => "(" ++ a.render ++ "|" ++ b.render ++ ")"

/-- Modelled from the spec: `model.Profile` (file `model.py` is not under
`src/`): the partial identity tuple `{ username?, id?, roles*, ip? }`. -/
structure Profile where
  username : Option String := none
  id : Option String := none
  roles : List String := []
  ip : Option String := none
deriving DecidableEq, Repr

/-- Modelled from the spec: `Profile.is_profile_symbol(sym) ≡ '.' ∈ sym`. -/
def is_profile_symbol (s : String) : Bool :=
  s.data.contains '.'

/-- Modelled from the spec: `Profile.is_role_symbol(sym)` ≡ `sym` starts with
`roles.`. -/
def is_role_symbol (s : String) : Bool :=
  prefix_of_chars "roles.".data s.data

/-- Modelled from the spec: the canonical symbol set of a rendered profile,
`{username.<u>, id.<x>, roles.<r>, ip.<i>}` for the fields present
(`ALGEBRA.parse(str(profile)).get_symbols()`). -/
def profile_symbols (p : Profile) : List String :=
  (match p.username with | some u => ["username." ++ u] | none => []) ++
  (match p.id with | some x => ["id." ++ x] | none => []) ++
  p.roles.map (fun r => "roles." ++ r) ++
  (match p.ip with | some i => ["ip." ++ i] | none => [])

/-- Symbols of `str(profile)` for an optional profile: the local-exploit entry
point passes no profile, so `str(None) = "None"` is parsed, giving the single
symbol `None`. -/
def profile_symbols_opt : Option Profile → List String
  | some p => profile_symbols p
  | none => ["None"]

/-- `ip_local_flag = profile.ip == "local" if profile else False`
(actions.py line 474). -/
def ip_local_flag : Option Profile → Bool
  | some p => p.ip = some "local"
  | none => false

/-- Modelled from the spec: the parse of one profile string
`"k1.v1&k2.v2&..."` (grammar §6; `model.profile_str_to_dict` is not under
`src/`). Keys are `username|id|ip|roles`; `roles` may repeat and accumulates;
a repeated scalar key keeps the last value, as a Python dict does. -/
structure PDict where
  username : Option String := none
  id : Option String := none
  ip : Option String := none
  roles : List String := []
deriving DecidableEq, Repr

/-- Split a character list at every occurrence of the separator
(kernel-computable `str.split(sep)` for a one-character separator). -/
def split_on_char (c : Char) : List Char → List (List Char)
  | [] => [[]]
  | d :: ds =>
    let r := split_on_char c ds
    if d = c then [] :: r
    else
      match r with
      | [] => [[d]]
      | g :: gs => (d :: g) :: gs

/-- `s.split(sep)` for a one-character separator. -/
def str_split (s : String) (c : Char) : List String :=
  (split_on_char c s.data).map String.mk

/-- `'.'.join(parts)`. -/
def join_with_dots (parts : List String) : String :=
  String.mk (List.intercalate ['.'] (parts.map String.data))

/-- Fold one `k.v` component into the dictionary. -/
def pdict_add (d : PDict) (part : String) : PDict :=
  match str_split part '.' with
  | k :: v :: vs =>
    let value := join_with_dots (v :: vs)
    if k = "username" then { d with username := some value }
    else if k = "id" then { d with id := some value }
    else if k = "ip" then { d with ip := some value }
    else if k = "roles" then { d with roles := d.roles ++ [value] }
    else d
  | _ => d

/-- Modelled from the spec: `model.profile_str_to_dict`. -/
def profile_str_to_dict (s : String) : PDict :=
  (str_split s '&').foldl pdict_add {}

/-- `len(profile_dict)`: the number of keys present (the `roles` key counts
once when any role is present). -/
def pdict_len (d : PDict) : Nat :=
  (if d.username.isSome then 1 else 0) +
  (if d.id.isSome then 1 else 0) +
  (if d.ip.isSome then 1 else 0) +
  (if d.roles = [] then 0 else 1)

/-- `model.Profile(**profile_dict)`. -/
def profile_of_pdict (d : PDict) : Profile :=
  { username := d.username, id := d.id, roles := d.roles, ip := d.ip }

/-- Modelled from the spec: `Profile.update` / `merge(dst, src)` fills each
missing scalar of `dst` from `src`, unions `roles`, and returns the count of
newly filled atomic fields (model.py is not under `src/`). The username key is
the match key and is never counted. -/
def profile_update (p : Profile) (d : PDict) : Profile × Nat :=
  let idPair : Option String × Nat :=
    match p.id, d.id with
    | none, some v => (some v, 1)
    | x, _ => (x, 0)
  let ipPair : Option String × Nat :=
    match p.ip, d.ip with
    | none, some v => (some v, 1)
    | x, _ => (x, 0)
  let newRoles := (dedup_str d.roles).filter (fun r => !p.roles.contains r)
  ({ p with id := idPair.1, ip := ipPair.1, roles := p.roles ++ newRoles },
   idPair.2 + ipPair.2 + newRoles.length)

/-- `model.MachineStatus`. -/
inductive MachineStatus where
  | Running
  | Imaging
  | Stopped
deriving DecidableEq, Repr

/-- `model.PrivilegeLevel`. -/
inductive PrivilegeLevel where
  | NoAccess
  | LocalUser
  | Admin
  | System
deriving DecidableEq, Repr

/-- Ordinal value of a privilege level. -/
def PrivilegeLevel.toNat : PrivilegeLevel → Nat
  | .NoAccess => 0
  | .LocalUser => 1
  | .Admin => 2
  | .System => 3

/-- Modelled from the spec: `model.escalate` (model.py is not under `src/`);
invariant I5 says privilege only escalates, so merging takes the maximum. -/
def escalate (a b : PrivilegeLevel) : PrivilegeLevel :=
  if b.toNat ≤ a.toNat then a else b

/-- Modelled from the spec: `model.PrivilegeEscalation(level).tag`, the special
property marking a privilege level reached on a node (model.py is not under
`src/`). -/
def priv_tag : PrivilegeLevel → String
  | .NoAccess => "privilege_NoAccess"
  | .LocalUser => "privilege_LocalUser"
  | .Admin => "privilege_Admin"
  | .System => "privilege_System"

/-- `self.privilege_tags = [model.PrivilegeEscalation(p).tag for p in
list(PrivilegeLevel)]` (actions.py line 167). -/
def privilege_tags : List String :=
  [priv_tag .NoAccess, priv_tag .LocalUser, priv_tag .Admin, priv_tag .System]

/-- `ErrorType` (actions.py lines 102-110). -/
inductive ErrorType where
  | NOERROR
  | OTHER
  | IP_LOCAL_NEEDED
  | ROLES_WRONG
  | REPEATED
  | PROPERTY_WRONG
  | WRONG_AUTH
  | NO_AUTH
deriving DecidableEq, Repr

/-- `EdgeAnnotation` (actions.py lines 113-117): `KNOWS(0) <
REMOTE_EXPLOIT(1) < LATERAL_MOVE(2)`. -/
inductive EdgeKind where
  | KNOWS
  | REMOTE_EXPLOIT
  | LATERAL_MOVE
deriving DecidableEq, Repr

/-- `.value` of the edge kind. -/
def EdgeKind.toNat : EdgeKind → Nat
  | .KNOWS => 0
  | .REMOTE_EXPLOIT => 1
  | .LATERAL_MOVE => 2

/-- `EdgeAnnotation(max(a.value, b.value))`. -/
def edge_kind_max (a b : EdgeKind) : EdgeKind :=
  if b.toNat ≤ a.toNat then a else b

/-- `model.VulnerabilityType`. -/
inductive VulnerabilityType where
  | LOCAL
  | REMOTE
deriving DecidableEq, Repr

/-- `model.RulePermission`. -/
inductive RulePermission where
  | ALLOW
  | BLOCK
deriving DecidableEq, Repr

/-- `model.FirewallRule { port, permission, reason = "" }`. -/
structure FirewallRule where
  port : String
  permission : RulePermission
  reason : String := ""
deriving DecidableEq, Repr

/-- `model.FirewallConfiguration { incoming, outgoing }`. -/
structure FirewallConfiguration where
  incoming : List FirewallRule := []
  outgoing : List FirewallRule := []
deriving DecidableEq, Repr

/-- `model.ListeningService`: the fields read by the kernel
(`name`, `running`, `allowedCredentials`). -/
structure ListeningService where
  name : String
  running : Bool := true
  allowedCredentials : List String := []
deriving DecidableEq, Repr

/-- `model.VulnerabilityOutcome`: the closed tagged union of outcomes.
`LeakedCredentials` carries `(node, credential)` pairs; `PrivilegeEscalation`
carries its level (its `tag` is `priv_tag level`); `ExploitFailed` carries its
optional cost (its `deception` flag is never read by the kernel). -/
inductive Outcome where
  | leakedCredentials (credentials : List (String × String))
  | leakedNodesId (discovered_nodes : List String)
  | leakedProfiles (discovered_profiles : List String)
  | lateralMove
  | privilegeEscalation (level : PrivilegeLevel)
  | customerData (reward : Int)
  | probeSucceeded (discovered_properties : List String)
  | exploitFailed (cost : Option Int)
  | detectionPoint
deriving DecidableEq, Repr

/-- `model.VulnerabilityInfo`. The source allows a scalar or a parallel list
for `precondition`/`outcome`/`reward_string`; the kernel iterates them through
`zip(precondition, range(len(precondition)), outcome)` and wraps scalars into
singleton lists (actions.py lines 481-482), so the embedding stores the lists
directly (a scalar vulnerability is the singleton case). -/
structure Vulnerability where
  vtype : VulnerabilityType
  cost : Int := 1
  preconditions : List BExpr
  outcomes : List Outcome
  reward_strings : List String
deriving DecidableEq, Repr

/-- `model.NodeInfo`: the fields read or written by the kernel. -/
structure NodeInfo where
  status : MachineStatus := .Running
  privilege_level : PrivilegeLevel := .NoAccess
  value : Int := 0
  agent_installed : Bool := false
  properties : List String := []
  services : List ListeningService := []
  firewall : FirewallConfiguration := {}
  vulnerabilities : List (String × Vulnerability) := []
  last_reimaging : Option Nat := none
deriving DecidableEq, Repr

/-- `model.Identifiers`: the three ordered property vocabularies. -/
structure Identifiers where
  properties : List String := []
  initial_properties : List String := []
  global_properties : List String := []
deriving DecidableEq, Repr

/-- `NodeTrackingInformation` (actions.py lines 133-142): per-node ledger
entry. `last_attack` maps `(vulnerability id, local_or_remote, precondition,
success)` to the time of the last attack. -/
structure NodeTrackingInformation where
  last_attack : List ((String × Bool × BExpr × Bool) × Nat) := []
  last_owned_at : Option Nat := none
  discovered_properties : List Nat := []
deriving DecidableEq, Repr

/-- The combined mutable state: the environment (`model.Environment`: network
nodes, annotated edges, vulnerability library, identifiers) and the
`AgentActions` discovery ledger (gathered credentials and profiles, discovered
nodes in insertion order, the `__ip_local` flag). -/
structure Sim where
  nodes : List (String × NodeInfo)
  edges : List (String × String × EdgeKind) := []
  vulnerability_library : List (String × Vulnerability) := []
  identifiers : Identifiers := {}
  gathered_credentials : List String := []
  gathered_profiles : List Profile := [{ username := some "NoAuth" }]
  discovered_nodes : List (String × NodeTrackingInformation) := []
  ip_local : Bool := false
deriving DecidableEq, Repr

/-- `ActionResult` (actions.py lines 120-127); `precondition`/`profile` are
`none` where the source stores the empty string. -/
structure ActionResult where
  reward : Int
  outcome : Option Outcome := none
  precondition : Option BExpr := none
  profile : Option Profile := none
  reward_string : String := ""
deriving DecidableEq, Repr

/-- Penalty constants (actions.py lines 36-71). -/
def pSUSPICIOUSNESS : Int := -50

/-- `Penalty.SCANNING_UNOPEN_PORT`. -/
def pSCANNING_UNOPEN_PORT : Int := -10

/-- `Penalty.REPEAT`. -/
def pREPEAT : Int := -20

/-- `Penalty.LOCAL_EXPLOIT_FAILED`. -/
def pLOCAL_EXPLOIT_FAILED : Int := -20

/-- `Penalty.FAILED_REMOTE_EXPLOIT`. -/
def pFAILED_REMOTE_EXPLOIT : Int := -30

/-- `Penalty.MACHINE_NOT_RUNNING`. -/
def pMACHINE_NOT_RUNNING : Int := 0

/-- `Penalty.WRONG_PASSWORD`. -/
def pWRONG_PASSWORD : Int := -10

/-- `Penalty.BLOCKED_BY_LOCAL_FIREWALL`. -/
def pBLOCKED_BY_LOCAL_FIREWALL : Int := -10

/-- `Penalty.BLOCKED_BY_REMOTE_FIREWALL`. -/
def pBLOCKED_BY_REMOTE_FIREWALL : Int := -10

/-- `Penalty.INVALID_ACTION`. -/
def pINVALID_ACTION : Int := -5

/-- `Penalty.NO_VPN`. -/
def pNO_VPN : Int := -40

/-- `Penalty.DECEPTION_PENALTY_FOR_AGENT`. -/
def pDECEPTION_PENALTY_FOR_AGENT : Int := 0

/-- `Reward.NEW_SUCCESSFULL_ATTACK_REWARD` (actions.py line 78). -/
def rNEW_SUCCESSFULL_ATTACK : Int := 15

/-- `Reward.NODE_DISCOVERED_REWARD`. -/
def rNODE_DISCOVERED : Int := 3

/-- `Reward.CREDENTIAL_DISCOVERED_REWARD`. -/
def rCREDENTIAL_DISCOVERED : Int := 3

/-- `Reward.PROPERTY_DISCOVERED_REWARD`. -/
def rPROPERTY_DISCOVERED : Int := 2

/-- `Reward.PROFILE_DISCOVERED_REWARD`. -/
def rPROFILE_DISCOVERED : Int := 3

/-- `Reward.IP_CHANGE_TO_IP_LOCAL`. -/
def rIP_CHANGE_TO_IP_LOCAL : Int := 10

/-- `Reward.SSRF`. -/
def rSSRF : Int := 15

/-- `self._environment.get_node(node_id)`: KeyError on a missing node. -/
def get_node (s : Sim) (n : String) : Except KErr NodeInfo :=
  match assoc_lookup s.nodes n with
  | some info => .ok info
  | none => .error .keyError

/-- In-place mutation of the node object held in the network. -/
def upd_node (s : Sim) (n : String) (f : NodeInfo → NodeInfo) : Sim :=
  { s with nodes := assoc_update s.nodes n f }

/-- Max-annotate or create the directed edge (actions.py lines 249-260). -/
def upd_edges : List (String × String × EdgeKind) → String → String → EdgeKind →
    List (String × String × EdgeKind)
  | [], a, b, k => [(a, b, k)]
  | (x, y, e) :: rest, a, b, k =>
    if x = a ∧ y = b then (x, y, edge_kind_max e k) :: rest
    else (x, y, e) :: upd_edges rest a b k

/-- `__annotate_edge`. -/
def annotate_edge (s : Sim) (src tgt : String) (k : EdgeKind) : Sim :=
  { s with edges := upd_edges s.edges src tgt k }

/-- `[self._environment.identifiers.properties.index(p) for p in properties]`:
indices of property names, ValueError (None) when a name is missing. -/
def idx_list (identifiers : List String) : List String → Option (List Nat)
  | [] => some []
  | p :: ps =>
    match index_of_str identifiers p, idx_list identifiers ps with
    | some i, some is => some (i :: is)
    | _, _ => none

/-- `__mark_nodeproperties_as_discovered` (actions.py lines 278-300): filter
out privilege tags, convert to indices, then either count (dry run,
`propagate=False`) or union into the node's discovered-properties set. -/
def mark_nodeproperties_as_discovered (s : Sim) (node_id : String)
    (properties : List String) (propagate : Bool) : Except KErr (Sim × Nat) :=
  match idx_list s.identifiers.properties
      (properties.filter (fun p => !privilege_tags.contains p)) with
  | none => .error .valueError
  | some idxs =>
    match assoc_lookup s.discovered_nodes node_id with
    | some tr =>
      let newIdxs := (dedup_nat idxs).filter
        (fun i => !tr.discovered_properties.contains i)
      if propagate then
        let dn := assoc_update s.discovered_nodes node_id
          (fun t => { t with discovered_properties :=
                       t.discovered_properties ++ newIdxs })
        .ok ({ s with discovered_nodes := dn }, newIdxs.length)
      else .ok (s, newIdxs.length)
    | none =>
      if propagate then
        .ok ({ s with discovered_nodes := s.discovered_nodes ++
                 [(node_id, { discovered_properties := dedup_nat idxs })] },
             (dedup_nat idxs).length)
      else .ok (s, idxs.length)

/-- Insert a fresh (empty) tracking entry when the node is untracked
(`self._discovered_nodes[node_id] = NodeTrackingInformation()` guarded by a
membership test). -/
def ensure_tracked (s : Sim) (node_id : String) : Sim :=
  if assoc_mem s.discovered_nodes node_id then s
  else { s with discovered_nodes := s.discovered_nodes ++ [(node_id, {})] }

/-- `__mark_node_as_discovered` (actions.py lines 265-276). The seed
`only_global_properties` (line 269) intersects the first discovered node's
discovered-property *indices* (ints) with the `global_properties` *names*
(strings), so that Python set intersection is always empty (kept here as the
leading `[] ++`); the IndexError on an empty discovered map is kept. -/
def mark_node_as_discovered (s : Sim) (node_id : String) (propagate : Bool) :
    Except KErr (Sim × Nat) :=
  match s.discovered_nodes.head? with
  | none => .error .indexError
  | some _ =>
    match assoc_lookup s.nodes node_id with
    | none => .error .keyError
    | some node_info =>
      mark_nodeproperties_as_discovered
        (if propagate && !assoc_mem s.discovered_nodes node_id then
           { s with discovered_nodes := s.discovered_nodes ++ [(node_id, {})] }
         else s)
        node_id
        (([] : List String) ++ dedup_str (node_info.properties.filter
          (fun p => s.identifiers.initial_properties.contains p)))
        propagate

/-- `__mark_allnodeproperties_as_discovered` (actions.py lines 302-304). -/
def mark_allnodeproperties_as_discovered (s : Sim) (node_id : String)
    (propagate : Bool) : Except KErr (Sim × Nat) :=
  match assoc_lookup s.nodes node_id with
  | none => .error .keyError
  | some ni => mark_nodeproperties_as_discovered s node_id ni.properties propagate

/-- `__is_node_owned_history` (actions.py lines 810-816): last ownership time
and whether the node is still currently owned (I4). -/
def is_node_owned_history (s : Sim) (node_id : String) (node_info : NodeInfo) :
    Option Nat × Bool :=
  let last : Option Nat :=
    match assoc_lookup s.discovered_nodes node_id with
    | some tr => tr.last_owned_at
    | none => none
  match last with
  | none => (none, false)
  | some t =>
    (some t, match node_info.last_reimaging with
             | none => true
             | some r => r ≤ t)

/-- `__mark_node_as_owned` (actions.py lines 306-328): when not currently
owned (and propagating), ensure a tracking entry, install the agent and
escalate the privilege, discover all node properties, and stamp
`last_owned_at = now`; returns the pre-call ownership history. -/
def mark_node_as_owned (s : Sim) (node_id : String) (privilege : PrivilegeLevel)
    (propagate : Bool) (now : Nat) : Except KErr (Sim × (Option Nat × Bool)) :=
  match assoc_lookup s.nodes node_id with
  | none => .error .keyError
  | some node_info =>
    if propagate && !(is_node_owned_history s node_id node_info).2 then
      match mark_allnodeproperties_as_discovered
          (upd_node (ensure_tracked s node_id) node_id (fun ni =>
            { ni with agent_installed := true,
                      privilege_level := escalate ni.privilege_level privilege }))
          node_id propagate with
      | .error e => .error e
      | .ok (s3, _) =>
        .ok ({ s3 with discovered_nodes :=
                 (assoc_update s3.discovered_nodes node_id
                   (fun tr => { tr with last_owned_at := some now })) },
             is_node_owned_history s node_id node_info)
    else .ok (s, is_node_owned_history s node_id node_info)

/-- `_check_profile` (actions.py lines 182-200): evaluate the precondition
under the full mapping and under the roles-lenient mapping (the third value
`only_roles_true` of the source is never read by the caller and is omitted). -/
def check_profile (profile : Option Profile) (pre : BExpr) : Bool × Bool :=
  let psyms := profile_symbols_opt profile
  let full := fun sy => !is_profile_symbol sy || psyms.contains sy
  let wo := fun sy =>
    !is_profile_symbol sy || is_role_symbol sy || psyms.contains sy
  (pre.evalWith full, pre.evalWith wo)

/-- Names of the discovered property indices
(`{identifiers.properties[p] for p in discovered}`). -/
def names_of_idxs (identifiers : List String) : List Nat → Option (List String)
  | [] => some []
  | i :: is =>
    match identifiers.get? i, names_of_idxs identifiers is with
    | some nm, some nms => some (nm :: nms)
    | _, _ => none

/-- `_check_properties_after_profile_check` (actions.py lines 202-218):
property symbols are true iff among the *discovered* properties of the target;
profile symbols as in the full mapping. -/
def check_properties_after_profile_check (s : Sim) (target : String)
    (profile : Option Profile) (pre : BExpr) : Except KErr Bool :=
  match assoc_lookup s.discovered_nodes target with
  | none => .error .keyError
  | some tr =>
    match names_of_idxs s.identifiers.properties tr.discovered_properties with
    | none => .error .indexError
    | some node_properties =>
      let psyms := profile_symbols_opt profile
      .ok (pre.evalWith (fun sy =>
        node_properties.contains sy ||
        (is_profile_symbol sy && psyms.contains sy)))

/-- The six counters returned by `__mark_discovered_entities`. -/
structure DiscoveryCount where
  nodes : Nat := 0
  nodes_value : Int := 0
  props : Nat := 0
  creds : Nat := 0
  profiles : Nat := 0
  ip_change : Bool := false
deriving DecidableEq, Repr

/-- One credential of a `LeakedCredentials` outcome (actions.py lines
341-356). Source line 343 calls `__mark_node_as_discovered(credential.node)`
without forwarding `propagate`, so node discovery mutates even in the dry-run
scoring pass. -/
def mde_cred_step (s : Sim) (c : DiscoveryCount) (reference_node : String)
    (propagate : Bool) (cred : String × String) :
    Except KErr (Sim × DiscoveryCount) :=
  match mark_node_as_discovered s cred.1 true with
  | .error e => .error e
  | .ok (s1, new_properties) =>
    match assoc_lookup s1.nodes cred.1 with
    | none => .error .keyError
    | some node_info =>
      let c1 := if new_properties ≠ 0 then
          { c with nodes := c.nodes + 1,
                   nodes_value := c.nodes_value + node_info.value,
                   props := c.props + new_properties }
        else c
      let isNew := !s1.gathered_credentials.contains cred.2
      let c2 := if isNew then { c1 with creds := c1.creds + 1 } else c1
      let s2 := if isNew && propagate then
          { s1 with gathered_credentials := s1.gathered_credentials ++ [cred.2] }
        else s1
      let s3 := if propagate then annotate_edge s2 reference_node cred.1 .KNOWS
        else s2
      .ok (s3, c2)

/-- Fold of `mde_cred_step` over the leaked credentials. -/
def mde_creds (reference_node : String) (propagate : Bool) :
    Sim → DiscoveryCount → List (String × String) →
    Except KErr (Sim × DiscoveryCount)
  | s, c, [] => .ok (s, c)
  | s, c, cred :: rest =>
    match mde_cred_step s c reference_node propagate cred with
    | .error e => .error e
    | .ok (s1, c1) => mde_creds reference_node propagate s1 c1 rest

/-- The `LeakedNodesId` loop of `__mark_discovered_entities` (actions.py lines
358-367); here `propagate` is forwarded. -/
def mde_nodes (reference_node : String) (propagate : Bool) :
    Sim → DiscoveryCount → List String → Except KErr (Sim × DiscoveryCount)
  | s, c, [] => .ok (s, c)
  | s, c, nid :: rest =>
    match mark_node_as_discovered s nid propagate with
    | .error e => .error e
    | .ok (s1, new_properties) =>
      match assoc_lookup s1.nodes nid with
      | none => .error .keyError
      | some node_info =>
        let c1 := if new_properties ≠ 0 then
            { c with nodes := c.nodes + 1,
                     nodes_value := c.nodes_value + node_info.value,
                     props := c.props + new_properties }
          else c
        let s2 := if propagate then annotate_edge s1 reference_node nid .KNOWS
          else s1
        mde_nodes reference_node propagate s2 c1 rest

/-- Update every gathered profile whose username matches, accumulating the
per-profile update counts (actions.py lines 387-392). -/
def update_matching_profiles (u : String) (d : PDict) (propagate : Bool) :
    List Profile → List Profile × Nat
  | [] => ([], 0)
  | pr :: rest =>
    let tail := update_matching_profiles u d propagate rest
    if pr.username = some u then
      let upd := profile_update pr d
      ((if propagate then upd.1 else pr) :: tail.1, upd.2 + tail.2)
    else (pr :: tail.1, tail.2)

/-- One leaked profile string of a `LeakedProfiles` outcome (actions.py lines
370-398), acting on `(gathered profiles, profile count, ip-local change flag)`.
A string without a `username` key is skipped except for the ip-local check. -/
def mde_profile_step (ipl : Bool) (propagate : Bool)
    (acc : List Profile × Nat × Bool) (str1 : String) :
    List Profile × Nat × Bool :=
  let d := profile_str_to_dict str1
  let next : List Profile × Nat :=
    match d.username with
    | none => (acc.1, acc.2.1)
    | some u =>
      if acc.1.any (fun pr => pr.username = some u) then
        let upd := update_matching_profiles u d propagate acc.1
        (upd.1, acc.2.1 + upd.2)
      else
        ((if propagate then acc.1 ++ [profile_of_pdict d] else acc.1),
         acc.2.1 + pdict_len d)
  let flag := if !(ipl || acc.2.2) then str_contains str1 "ip.local"
    else acc.2.2
  (next.1, next.2, flag)

/-- `__mark_discovered_entities` (actions.py lines 330-401). -/
def mark_discovered_entities (s : Sim) (reference_node : String)
    (outcome : Outcome) (propagate : Bool) : Except KErr (Sim × DiscoveryCount) :=
  match outcome with
  | .leakedCredentials creds => mde_creds reference_node propagate s {} creds
  | .leakedNodesId nids => mde_nodes reference_node propagate s {} nids
  | .leakedProfiles strs =>
    let r := strs.foldl (mde_profile_step s.ip_local propagate)
      (s.gathered_profiles, 0, false)
    .ok ({ s with gathered_profiles := r.1 },
         { profiles := r.2.1, ip_change := r.2.2 })
  | _ => .ok (s, {})

/-- The fixed arguments of `__process_outcome` threaded through the branch
loop. -/
structure OCtx where
  vulnerability_id : String
  node_id : String
  local_or_remote : Bool
  failed_penalty : Int
  profile : Option Profile := none
  cost : Int
  now : Nat
deriving DecidableEq, Repr

/-- One appended candidate: the parallel entries of `error_type_list`,
`max_reward_list`, `max_precondition_index_list`, `max_outcome_list`. -/
structure Cand where
  error : ErrorType
  reward : Int
  idx : Nat
  outcome : Outcome
deriving DecidableEq, Repr

/-- The loop state: the mutable world/ledger, the candidate lists, and the
running `max_reward` (`None` stands for the `-sys.float_info.max` start). -/
structure LoopSt where
  sim : Sim
  cands : List Cand := []
  max_reward : Option Int := none
deriving DecidableEq, Repr

/-- `max_reward <= r` test with the `-sys.float_info.max` start. -/
def maxle_py (m : Option Int) (r : Int) : Bool :=
  match m with
  | none => true
  | some v => v ≤ r

/-- Append the candidate when `max_reward <= reward` (the guard of every
`*_list.append` group in the loop). -/
def push_if (cands : List Cand) (m : Option Int) (c : Cand) : List Cand :=
  if maxle_py m c.reward then cands ++ [c] else cands

/-- `max` of a list of rewards (`max(max_reward_list)`, line 615). -/
def list_max_int : List Int → Option Int
  | [] => none
  | x :: xs =>
    match list_max_int xs with
    | none => some x
    | some m => some (max x m)

/-- `"ip.local" in [str(i) for i in precondition.expression.get_symbols() if
'.' in str(i)]` (actions.py line 487). -/
def contains_ip_local_symbol (pre : BExpr) : Bool :=
  (pre.symbols.filter (fun sy => sy.data.contains '.')).contains "ip.local"

/-- The error classification on a failed profile check (actions.py lines
499-500); with no profile (a local exploit) the `profile.username` access
raises AttributeError unless the roles-lenient mapping already decided. -/
def classify_profile_error (profile : Option Profile) (wo_roles : Bool) :
    Except KErr ErrorType :=
  if wo_roles then .ok .ROLES_WRONG
  else
    match profile with
    | none => .error .attributeError
    | some p => .ok (if p.username = some "NoAuth" then .NO_AUTH else .WRONG_AUTH)

/-- `last_time >= node_info.last_reimaging` with a missing reimage time
counting as a match (actions.py lines 585, 634, 691). -/
def attack_not_reimaged (t : Nat) (reimg : Option Nat) : Bool :=
  match reimg with
  | none => true
  | some rt => rt ≤ t

/-- Lookup in a `last_attack` history. -/
def lookup_attack : List ((String × Bool × BExpr × Bool) × Nat) →
    (String × Bool × BExpr × Bool) → Option Nat
  | [], _ => none
  | (k, t) :: rest, key => if k = key then some t else lookup_attack rest key

/-- `last_attack` history of a node in the ledger (empty when untracked). -/
def node_last_attack (s : Sim) (node_id : String)
    (key : String × Bool × BExpr × Bool) : Option Nat :=
  match assoc_lookup s.discovered_nodes node_id with
  | some tr => lookup_attack tr.last_attack key
  | none => none

/-- `assert p in node_info.properties or p in global_properties` for each
probed property (actions.py lines 566-568 and 676-678). -/
def probe_assert (node_info : NodeInfo) (globals1 : List String) :
    List String → Except KErr Unit
  | [] => .ok ()
  | p :: ps =>
    if node_info.properties.contains p || globals1.contains p then
      probe_assert node_info globals1 ps
    else .error .assertionFailed

/-- Mark the global probed properties on every already-discovered node
(actions.py lines 571-572 and 681-682); the returned counts are discarded. -/
def mark_global_on_discovered (only_global : List String) (propagate : Bool) :
    Sim → List String → Except KErr Sim
  | s, [] => .ok s
  | s, nid :: rest =>
    match mark_nodeproperties_as_discovered s nid only_global propagate with
    | .error e => .error e
    | .ok (s1, _) => mark_global_on_discovered only_global propagate s1 rest

/-- The `ProbeSucceeded` block shared by the dry run (propagate false, lines
563-572) and reused with the real flag by the commit phase: assert the probed
properties, mark them on the node, propagate global ones to every discovered
node; returns the newly discovered count for the node itself. -/
def probe_block (s : Sim) (node_id : String) (globals1 : List String)
    (guard_ps mark_ps : List String) (propagate : Bool) :
    Except KErr (Sim × Nat) :=
  match assoc_lookup s.nodes node_id with
  | none => .error .keyError
  | some node_info =>
    match probe_assert node_info globals1 guard_ps with
    | .error e => .error e
    | .ok _ =>
      match mark_nodeproperties_as_discovered s node_id mark_ps propagate with
      | .error e => .error e
      | .ok (s1, n) =>
        match mark_global_on_discovered
            (dedup_str (guard_ps.filter (fun p => globals1.contains p)))
            propagate s1 (s1.discovered_nodes.map (fun kv => kv.1)) with
        | .error e => .error e
        | .ok s2 => .ok (s2, n)

/-- The `ProbeSucceeded` dispatch of the dry run (actions.py lines 563-572):
non-probe outcomes contribute nothing. -/
def pb_probe (s2 : Sim) (node_id : String) (out : Outcome) :
    Except KErr (Sim × Nat) :=
  match out with
  | .probeSucceeded ps =>
    probe_block s2 node_id s2.identifiers.global_properties ps ps false
  | _ => .ok (s2, 0)

/-- The outcome-variant reward adjustment at the head of the success path of a
branch (actions.py lines 531-554). For `PrivilegeEscalation` with a fresh tag
the source appends the tag to the live node's property list even though this
is the dry-run scoring pass (line 543). -/
def pb_adjust (s : Sim) (node_id : String) (out : Outcome) (reward0 : Int)
    (now : Nat) : Except KErr (Sim × Int) :=
  match out with
  | .privilegeEscalation lvl =>
    match assoc_lookup s.nodes node_id with
    | none => .error .keyError
    | some node_info =>
      if node_info.properties.contains (priv_tag lvl) then
        .ok (s, reward0 + pREPEAT)
      else
        match mark_node_as_owned s node_id lvl false now with
        | .error e => .error e
        | .ok (s1, h) =>
          let r := if h.1 = none then reward0 + node_info.value else reward0
          .ok (upd_node s1 node_id (fun ni =>
            { ni with properties := ni.properties ++ [priv_tag lvl] }), r)
  | .lateralMove =>
    match assoc_lookup s.nodes node_id with
    | none => .error .keyError
    | some node_info =>
      match mark_node_as_owned s node_id .LocalUser false now with
      | .error e => .error e
      | .ok (s1, h) =>
        .ok (s1, if h.1 = none then reward0 + node_info.value else reward0)
  | .customerData c => .ok (s, reward0 + c)
  | .detectionPoint => .ok (s, reward0 + pDECEPTION_PENALTY_FOR_AGENT)
  | _ => .ok (s, reward0)

/-- Whether an outcome is an `ExploitFailed` instance. -/
def is_exploit_failed : Outcome → Bool
  | .exploitFailed _ => true
  | _ => false

/-- Tail of the success path of one branch after the repeat lookup: one-time
bonuses, discovery bonuses, SSRF bonus, candidate push and `max_reward`
recomputation (actions.py lines 592-615). -/
def pb_finish (ctx : OCtx) (st : LoopSt) (s3 : Sim) (pre : BExpr) (pidx : Nat)
    (out : Outcome) (r1 : Int) (cnt : DiscoveryCount) (props_total : Nat)
    (fresh : Bool) : LoopSt :=
  let r2 := if fresh && !is_exploit_failed out then
      r1 + rNEW_SUCCESSFULL_ATTACK
    else r1
  let r3 := if !s3.ip_local && cnt.ip_change then r2 + rIP_CHANGE_TO_IP_LOCAL
    else r2
  let r4 := r3 + (cnt.nodes : Int) * rNODE_DISCOVERED +
    (cnt.creds : Int) * rCREDENTIAL_DISCOVERED +
    (cnt.profiles : Int) * rPROFILE_DISCOVERED +
    (props_total : Int) * rPROPERTY_DISCOVERED
  let r5 := if str_contains pre.render "ip.local" && ip_local_flag ctx.profile
    then r4 + rSSRF else r4
  let c : Cand :=
    { error := .NOERROR, reward := r5, idx := pidx, outcome := out }
  let cands1 := push_if st.cands st.max_reward c
  { sim := s3, cands := cands1,
    max_reward := list_max_int (cands1.map (fun d => d.reward)) }

/-- Success path of one branch (actions.py lines 531-615): dry-run outcome
adjustment and discovery accounting, repeat detection, then `pb_finish`; on a
repeat the candidate is pushed and the loop `continue`s (keeping the dry-run
mutations of `sim` but not recomputing `max_reward`). -/
def process_branch_noerror (ctx : OCtx) (st : LoopSt) (pre : BExpr)
    (pidx : Nat) (out : Outcome) (reward0 : Int) : Except KErr LoopSt :=
  match pb_adjust st.sim ctx.node_id out reward0 ctx.now with
  | .error e => .error e
  | .ok (s1, r1) =>
    match mark_discovered_entities s1 ctx.node_id out false with
    | .error e => .error e
    | .ok (s2, cnt) =>
      match pb_probe s2 ctx.node_id out with
      | .error e => .error e
      | .ok (s3, extra) =>
        match assoc_lookup s3.nodes ctx.node_id with
        | none => .error .keyError
        | some node_info =>
          match node_last_attack s3 ctx.node_id
              (ctx.vulnerability_id, ctx.local_or_remote, pre, true) with
          | some t =>
            if attack_not_reimaged t node_info.last_reimaging then
              .ok { sim := s3,
                    cands := push_if st.cands st.max_reward
                      { error := .REPEATED, reward := pREPEAT - ctx.cost,
                        idx := pidx, outcome := out },
                    max_reward := st.max_reward }
            else
              .ok (pb_finish ctx st s3 pre pidx out r1 cnt (cnt.props + extra)
                false)
          | none =>
            .ok (pb_finish ctx st s3 pre pidx out r1 cnt (cnt.props + extra)
              true)

/-- One iteration of the branch loop of `__process_outcome` (actions.py lines
484-615). -/
def process_branch (ctx : OCtx) (st : LoopSt) (pre : BExpr) (pidx : Nat)
    (out : Outcome) : Except KErr LoopSt :=
  let reward0 : Int := -ctx.cost
  if contains_ip_local_symbol pre && !ip_local_flag ctx.profile then
    let c : Cand :=
      { error := .IP_LOCAL_NEEDED, reward := reward0 + pNO_VPN, idx := pidx,
        outcome := .exploitFailed none }
    .ok { st with cands := push_if st.cands st.max_reward c }
  else
    if !(check_profile ctx.profile pre).1 then
      match classify_profile_error ctx.profile (check_profile ctx.profile pre).2 with
      | .error e => .error e
      | .ok err =>
        let c : Cand :=
          { error := err, reward := reward0 + pFAILED_REMOTE_EXPLOIT,
            idx := pidx, outcome := .exploitFailed none }
        .ok { st with cands := push_if st.cands st.max_reward c }
    else
      match check_properties_after_profile_check st.sim ctx.node_id ctx.profile
          pre with
      | .error e => .error e
      | .ok props_ok =>
        if !props_ok then
          let c : Cand :=
            { error := .PROPERTY_WRONG, reward := reward0 + ctx.failed_penalty,
              idx := pidx, outcome := .exploitFailed none }
          .ok { st with cands := push_if st.cands st.max_reward c }
        else
          match out with
          | .exploitFailed oc =>
            let r := reward0 +
              (match oc with | some c => -c | none => pFAILED_REMOTE_EXPLOIT)
            let c : Cand :=
              { error := .OTHER, reward := r, idx := pidx,
                outcome := .exploitFailed oc }
            .ok { st with cands := push_if st.cands st.max_reward c }
          | _ => process_branch_noerror ctx st pre pidx out reward0

/-- The whole branch loop. -/
def process_branches (ctx : OCtx) :
    LoopSt → List (BExpr × Nat × Outcome) → Except KErr LoopSt
  | st, [] => .ok st
  | st, (pre, pidx, out) :: rest =>
    match process_branch ctx st pre pidx out with
    | .error e => .error e
    | .ok st1 => process_branches ctx st1 rest

/-- `zip(precondition, range(len(precondition)), outcome)` (actions.py lines
481-482), truncating at the shorter list. -/
def branches_of (v : Vulnerability) : List (BExpr × Nat × Outcome) :=
  ((v.preconditions.zip (List.range v.preconditions.length)).zip
    v.outcomes).map (fun pio => (pio.1.1, pio.1.2, pio.2))

/-- Indices attaining the maximal reward
(`np.argwhere(l == np.amax(l)).flatten()`). -/
def argmax_idxs (l : List Int) : List Nat :=
  match list_max_int l with
  | none => []
  | some m => (List.range l.length).filter (fun i => l.getD i 0 = m)

/-- The vulnerability resolution of `__process_outcome` (actions.py lines
434-451): the global library is consulted first, the per-node map only when
the id is absent from the library. -/
def resolve_vulnerability (library node_vulns : List (String × Vulnerability))
    (vid : String) : Option Vulnerability :=
  if assoc_mem library vid then assoc_lookup library vid
  else if assoc_mem node_vulns vid then assoc_lookup node_vulns vid
  else none

/-- Python dict assignment `last_attack[key] = now`. -/
def attack_insert : List ((String × Bool × BExpr × Bool) × Nat) →
    (String × Bool × BExpr × Bool) → Nat →
    List ((String × Bool × BExpr × Bool) × Nat)
  | [], key, t => [(key, t)]
  | (k, v) :: rest, key, t =>
    if k = key then (k, t) :: rest else (k, v) :: attack_insert rest key t

/-- The failure return of `__process_outcome` (actions.py lines 627-641):
the selected candidate has an error; a previously failed identical attempt
re-classifies as `REPEATED` and subtracts `Penalty.REPEAT` once; the ledger is
returned as the loop left it, with no `last_attack` write. -/
def failure_path (s : Sim) (ctx : OCtx) (cand : Cand)
    (max_precondition : BExpr) (max_reward_string : String) :
    Except KErr (Sim × Bool × ActionResult) :=
  match assoc_lookup s.nodes ctx.node_id with
  | none => .error .keyError
  | some node_info =>
    let rw : Int :=
      if cand.error ≠ ErrorType.REPEATED then
        match node_last_attack s ctx.node_id
            (ctx.vulnerability_id, ctx.local_or_remote, max_precondition,
             false) with
        | some t =>
          if attack_not_reimaged t node_info.last_reimaging then
            cand.reward - pREPEAT
          else cand.reward
        | none => cand.reward
      else cand.reward
    .ok (s, false,
      { reward := rw, outcome := some cand.outcome,
        precondition := some max_precondition, profile := ctx.profile,
        reward_string := max_reward_string })

/-- The outcome-variant adjustment at the head of the commit phase
(actions.py lines 645-664). The `CustomerData` test reads the leftover loop
variable `outcome` (the last iterated branch), not the winning outcome. -/
def commit_adjust (s0 : Sim) (ctx : OCtx) (winning last_outcome : Outcome)
    (reward0 : Int) : Except KErr (Sim × Int) :=
  match winning with
  | .privilegeEscalation lvl =>
    match assoc_lookup s0.nodes ctx.node_id with
    | none => .error .keyError
    | some node_info =>
      if node_info.properties.contains (priv_tag lvl) then
        .ok (s0, reward0 + pREPEAT)
      else
        match mark_node_as_owned s0 ctx.node_id lvl true ctx.now with
        | .error e => .error e
        | .ok (s1, h) =>
          let r := if h.1 = none then reward0 + node_info.value else reward0
          .ok (upd_node s1 ctx.node_id (fun ni =>
            { ni with properties := ni.properties ++ [priv_tag lvl] }), r)
  | .lateralMove =>
    match assoc_lookup s0.nodes ctx.node_id with
    | none => .error .keyError
    | some node_info =>
      match mark_node_as_owned s0 ctx.node_id .LocalUser true ctx.now with
      | .error e => .error e
      | .ok (s1, h) =>
        .ok (s1, if h.1 = none then reward0 + node_info.value else reward0)
  | _ =>
    match last_outcome with
    | .customerData c => .ok (s0, reward0 + c)
    | _ =>
      match winning with
      | .detectionPoint => .ok (s0, reward0 + pDECEPTION_PENALTY_FOR_AGENT)
      | _ => .ok (s0, reward0)

/-- The `ProbeSucceeded` dispatch of the commit phase (actions.py lines
673-682): the guard and asserts read the winning outcome but the marking reads
the *last* branch's outcome (line 680), raising AttributeError when the last
branch is not a probe. -/
def commit_probe (s2 : Sim) (node_id : String) (winning last_outcome : Outcome) :
    Except KErr (Sim × Nat) :=
  match winning with
  | .probeSucceeded ps =>
    (match last_outcome with
     | .probeSucceeded ps_last =>
       probe_block s2 node_id s2.identifiers.global_properties ps ps_last true
     | _ => .error .attributeError)
  | _ => .ok (s2, 0)

/-- The reward recomputation of the commit phase (actions.py lines 684-711):
one-time bonus from the success-key lookup and the *last* branch's outcome
(line 694), ip-local bonus, discovery bonuses, SSRF bonus. -/
def commit_recompute (s3 : Sim) (ctx : OCtx) (max_precondition : BExpr)
    (last_outcome : Outcome) (r1 : Int) (cnt : DiscoveryCount)
    (extra : Nat) : Int :=
  let already := (node_last_attack s3 ctx.node_id
    (ctx.vulnerability_id, ctx.local_or_remote, max_precondition,
     true)).isSome
  let r2 := if !already && !is_exploit_failed last_outcome then
      r1 + rNEW_SUCCESSFULL_ATTACK
    else r1
  let r3 := if cnt.ip_change then r2 + rIP_CHANGE_TO_IP_LOCAL else r2
  let r4 := r3 + (cnt.nodes : Int) * rNODE_DISCOVERED +
    (cnt.creds : Int) * rCREDENTIAL_DISCOVERED +
    (cnt.profiles : Int) * rPROFILE_DISCOVERED +
    ((cnt.props + extra : Nat) : Int) * rPROPERTY_DISCOVERED
  if str_contains max_precondition.render "ip.local" &&
      ip_local_flag ctx.profile then r4 + rSSRF else r4

/-- The state writes closing the commit phase (actions.py lines 697-702):
stamp the success key with the current time and unlock `__ip_local` when the
outcome changed it. -/
def commit_writes (s3 : Sim) (ctx : OCtx) (max_precondition : BExpr)
    (cnt : DiscoveryCount) : Sim :=
  { s3 with
    discovered_nodes := (assoc_update s3.discovered_nodes ctx.node_id
      (fun tr => { tr with last_attack := (attack_insert tr.last_attack
        (ctx.vulnerability_id, ctx.local_or_remote, max_precondition, true)
        ctx.now) })),
    ip_local := if cnt.ip_change then true else s3.ip_local }

/-- The commit phase of `__process_outcome` (actions.py lines 645-716):
real mutations, reward recomputation and the post-commit assertion
`reward == max_reward`. The `ProbeSucceeded` commit marks the *last* branch's
property list (line 680) and the one-time-bonus test reads the *last* branch's
outcome (line 694). -/
def commit_phase (s0 : Sim) (ctx : OCtx) (cand : Cand)
    (max_precondition : BExpr) (max_reward_string : String)
    (last_outcome : Outcome) : Except KErr (Sim × Bool × ActionResult) :=
  match commit_adjust s0 ctx cand.outcome last_outcome (-ctx.cost) with
  | .error e => .error e
  | .ok (s1, r1) =>
    match mark_discovered_entities s1 ctx.node_id cand.outcome true with
    | .error e => .error e
    | .ok (s2, cnt) =>
      match commit_probe s2 ctx.node_id cand.outcome last_outcome with
      | .error e => .error e
      | .ok (s3, extra) =>
        if !assoc_mem s3.discovered_nodes ctx.node_id then .error .keyError
        else if commit_recompute s3 ctx max_precondition last_outcome r1 cnt
            extra = cand.reward then
          .ok (commit_writes s3 ctx max_precondition cnt, true,
            { reward := cand.reward, outcome := some cand.outcome,
              precondition := some max_precondition, profile := ctx.profile,
              reward_string := max_reward_string })
        else .error .assertionFailed

/-- The fixed-argument record of one `__process_outcome` call. -/
def mk_octx (vulnerability_id node_id : String) (local_or_remote : Bool)
    (failed_penalty : Int) (profile : Option Profile) (cost : Int)
    (now : Nat) : OCtx :=
  { vulnerability_id := vulnerability_id, node_id := node_id,
    local_or_remote := local_or_remote, failed_penalty := failed_penalty,
    profile := profile, cost := cost, now := now }

/-- Candidate selection and dispatch at the end of `__process_outcome`
(actions.py lines 617-716): `np.amax` over the candidate rewards (ValueError
on no candidate), random tie-break over the argmax indices (`tie` selects the
candidate), then the failure path or the commit phase; the leftover loop
variable `outcome` read by the commit is the last branch's outcome. -/
def po_dispatch (ctx : OCtx) (v : Vulnerability) (tie : Nat) (st : LoopSt) :
    Except KErr (Sim × Bool × ActionResult) :=
  match list_max_int (st.cands.map (fun c => c.reward)) with
  | none => .error .valueError
  | some _ =>
    match (argmax_idxs (st.cands.map (fun c => c.reward))).get?
        (tie % (argmax_idxs (st.cands.map (fun c => c.reward))).length) with
    | none => .error .indexError
    | some ci =>
      match st.cands.get? ci with
      | none => .error .indexError
      | some cand =>
        match v.preconditions.get? cand.idx,
            v.reward_strings.get? cand.idx with
        | some max_precondition, some max_reward_string =>
          if cand.error ≠ ErrorType.NOERROR then
            failure_path st.sim ctx cand max_precondition max_reward_string
          else
            match (branches_of v).getLast? with
            | none => .error .nameError
            | some lastb =>
              commit_phase st.sim ctx cand max_precondition max_reward_string
                lastb.2.2
        | _, _ => .error .indexError

/-- `__process_outcome` (actions.py lines 416-716): early checks, branch
loop, random-tie argmax selection (`tie` picks among the argmax candidates),
then the failure or commit path. Returns `(state, succeeded, result)` where
`succeeded` is true exactly when the selected error is `NOERROR`. -/
def process_outcome (s : Sim) (expected_type : VulnerabilityType)
    (vulnerability_id : String) (node_id : String) (local_or_remote : Bool)
    (failed_penalty : Int) (throw_if_vulnerability_not_present : Bool)
    (profile : Option Profile) (tie : Nat) (now : Nat) :
    Except KErr (Sim × Bool × ActionResult) :=
  match get_node s node_id with
  | .error e => .error e
  | .ok node_info =>
    if node_info.status ≠ MachineStatus.Running then
      .ok (s, false, { reward := pMACHINE_NOT_RUNNING, profile := profile })
    else
      match resolve_vulnerability s.vulnerability_library
          node_info.vulnerabilities vulnerability_id with
      | none =>
        if throw_if_vulnerability_not_present then .error .valueError
        else
          .ok (s, false, { reward := pSUSPICIOUSNESS, profile := profile,
                           reward_string := "SUSPICIOUSNESS action" })
      | some v =>
        if v.vtype ≠ expected_type then .error .valueError
        else
          match process_branches
              (mk_octx vulnerability_id node_id local_or_remote
                failed_penalty profile v.cost now)
              { sim := s } (branches_of v) with
          | .error e => .error e
          | .ok st =>
            po_dispatch
              (mk_octx vulnerability_id node_id local_or_remote
                failed_penalty profile v.cost now) v tie st

/-- `exploit_remote_vulnerability` (actions.py lines 718-765). -/
def exploit_remote_vulnerability (s : Sim) (node_id target_node_id : String)
    (profile : Profile) (vulnerability_id : String)
    (throws_on_invalid_actions : Bool) (tie : Nat) (now : Nat) :
    Except KErr (Sim × ActionResult) :=
  if !assoc_mem s.nodes node_id then .error .valueError
  else if !assoc_mem s.nodes target_node_id then .error .valueError
  else
    match get_node s node_id with
    | .error e => .error e
    | .ok source_node_info =>
      if !source_node_info.agent_installed then
        if throws_on_invalid_actions then .error .valueError
        else .ok (s, { reward := pINVALID_ACTION, profile := some profile })
      else if !assoc_mem s.discovered_nodes target_node_id then
        if throws_on_invalid_actions then .error .valueError
        else .ok (s, { reward := pINVALID_ACTION, profile := some profile })
      else
        match process_outcome s .REMOTE vulnerability_id target_node_id false
            pFAILED_REMOTE_EXPLOIT false (some profile) tie now with
        | .error e => .error e
        | .ok (s1, succeeded, result) =>
          .ok ((if succeeded then
                  annotate_edge s1 node_id target_node_id .REMOTE_EXPLOIT
                else s1), result)

/-- `exploit_local_vulnerability` (actions.py lines 767-795); note that no
profile is passed to the outcome processor. -/
def exploit_local_vulnerability (s : Sim) (node_id vulnerability_id : String)
    (throws_on_invalid_actions : Bool) (tie : Nat) (now : Nat) :
    Except KErr (Sim × ActionResult) :=
  if !assoc_mem s.nodes node_id then .error .valueError
  else
    match get_node s node_id with
    | .error e => .error e
    | .ok node_info =>
      if !node_info.agent_installed then
        if throws_on_invalid_actions then .error .valueError
        else .ok (s, { reward := pINVALID_ACTION })
      else
        match process_outcome s .LOCAL vulnerability_id node_id true
            pLOCAL_EXPLOIT_FAILED false none tie now with
        | .error e => .error e
        | .ok (s1, _, result) => .ok (s1, result)

/-- `__is_passing_firewall_rules` (actions.py lines 797-808): the first rule
matching the port decides; no match blocks. -/
def is_passing_firewall_rules : List FirewallRule → String → Bool
  | [], _ => false
  | r :: rest, port =>
    if r.port = port then r.permission = RulePermission.ALLOW
    else is_passing_firewall_rules rest port

/-- `_check_service_running_and_authorized` (actions.py lines 907-918). -/
def check_service_running_and_authorized (target_node_data : NodeInfo)
    (port_name credential : String) : Bool :=
  target_node_data.services.any (fun sv =>
    sv.running && sv.name = port_name &&
    sv.allowedCredentials.contains credential)

/-- The success tail of `connect_to_remote_machine` (actions.py lines
889-905): own the target; an already currently-owned target earns `REPEAT`;
otherwise annotate the lateral-move edge and pay the node value only when the
target was never previously owned (`last_owned_at` was `None`). -/
def connect_success (s : Sim) (source_node_id target_node_id : String)
    (target_node : NodeInfo) (now : Nat) :
    Except KErr (Sim × ActionResult) :=
  match mark_node_as_owned s target_node_id .LocalUser true now with
  | .error e => .error e
  | .ok (s1, hist) =>
    if hist.2 then
      .ok (s1, { reward := pREPEAT, outcome := some .lateralMove })
    else
      .ok (annotate_edge (ensure_tracked s1 target_node_id) source_node_id
             target_node_id .LATERAL_MOVE,
           { reward := if hist.1 = none then target_node.value else 0,
             outcome := some .lateralMove })

/-- `connect_to_remote_machine` (actions.py lines 818-905). -/
def connect_to_remote_machine (s : Sim)
    (source_node_id target_node_id port_name credential : String)
    (throws_on_invalid_actions : Bool) (now : Nat) :
    Except KErr (Sim × ActionResult) :=
  if !assoc_mem s.nodes source_node_id then .error .valueError
  else if !assoc_mem s.nodes target_node_id then .error .valueError
  else
    match get_node s target_node_id with
    | .error e => .error e
    | .ok target_node =>
      match get_node s source_node_id with
      | .error e => .error e
      | .ok source_node =>
        if !source_node.agent_installed then
          if throws_on_invalid_actions then .error .valueError
          else .ok (s, { reward := pINVALID_ACTION })
        else if !assoc_mem s.discovered_nodes target_node_id then
          if throws_on_invalid_actions then .error .valueError
          else .ok (s, { reward := pINVALID_ACTION })
        else if !s.gathered_credentials.contains credential then
          if throws_on_invalid_actions then .error .valueError
          else .ok (s, { reward := pINVALID_ACTION })
        else if !is_passing_firewall_rules source_node.firewall.outgoing
            port_name then
          .ok (s, { reward := pBLOCKED_BY_LOCAL_FIREWALL })
        else if !is_passing_firewall_rules target_node.firewall.incoming
            port_name then
          .ok (s, { reward := pBLOCKED_BY_REMOTE_FIREWALL })
        else if !(target_node.services.any (fun sv => sv.name = port_name))
            then
          .ok (s, { reward := pSCANNING_UNOPEN_PORT })
        else if target_node.status ≠ MachineStatus.Running then
          .ok (s, { reward := pMACHINE_NOT_RUNNING })
        else if !check_service_running_and_authorized target_node port_name
            credential then
          .ok (s, { reward := pWRONG_PASSWORD })
        else
          connect_success s source_node_id target_node_id target_node now

/-- The rule-patching loop of `override_firewall_rule` (actions.py lines
1051-1063): rebuild the list, replacing matching rules, and remember whether a
match was seen. -/
def aopr_loop : List FirewallRule → String → RulePermission →
    List FirewallRule × Bool
  | [], _, _ => ([], false)
  | r :: rest, port, perm =>
    let tail := aopr_loop rest port perm
    if r.port = port then
      ({ port := r.port, permission := perm } :: tail.1, true)
    else (r :: tail.1, tail.2)

/-- `add_or_patch_rule` of `override_firewall_rule` (actions.py lines
1051-1063). -/
def add_or_patch_rule (rules : List FirewallRule) (port_name : String)
    (permission : RulePermission) : List FirewallRule :=
  let pr := aopr_loop rules port_name permission
  if pr.2 then pr.1
  else pr.1 ++ [{ port := port_name, permission := permission }]

/-- `DefenderAgentActions.override_firewall_rule` (actions.py lines
1048-1068). -/
def override_firewall_rule (s : Sim) (node_id port_name : String)
    (incoming : Bool) (permission : RulePermission) : Except KErr Sim :=
  match assoc_lookup s.nodes node_id with
  | none => .error .keyError
  | some _ =>
    .ok (upd_node s node_id (fun nd =>
      if incoming then
        { nd with firewall :=
            { nd.firewall with incoming :=
                add_or_patch_rule nd.firewall.incoming port_name permission } }
      else
        { nd with firewall :=
            { nd.firewall with outgoing :=
                add_or_patch_rule nd.firewall.outgoing port_name permission } }))

/-- An attacker action of one episode step (§6 inbound interface), carrying
its tie-break and clock values. -/
inductive AAction where
  | local_exploit (node_id vulnerability_id : String)
      (throws_on_invalid_actions : Bool) (tie now : Nat)
  | remote_exploit (node_id target_node_id : String) (profile : Profile)
      (vulnerability_id : String) (throws_on_invalid_actions : Bool)
      (tie now : Nat)
  | connect (source_node_id target_node_id port_name credential : String)
      (throws_on_invalid_actions : Bool) (now : Nat)
deriving DecidableEq, Repr

/-- One attacker step: apply the action; an exception aborts the episode, so
the observed state stops changing at the pre-action state (every individual
write of the kernel is itself monotone, as the per-operation lemmas show). -/
def step_action (s : Sim) : AAction → Sim
  | .local_exploit n v th tie now =>
    match exploit_local_vulnerability s n v th tie now with
    | .ok r => r.1
    | .error _ => s
  | .remote_exploit n t p v th tie now =>
    match exploit_remote_vulnerability s n t p v th tie now with
    | .ok r => r.1
    | .error _ => s
  | .connect a b port cred th now =>
    match connect_to_remote_machine s a b port cred th now with
    | .ok r => r.1
    | .error _ => s

/-- Run a sequence of attacker actions of one episode. -/
def run_actions (s : Sim) : List AAction → Sim
  | [] => s
  | a :: rest => run_actions (step_action s a) rest

/-- Discovered-property set of a node in the ledger ([] when untracked). -/
def discovered_props (s : Sim) (n : String) : List Nat :=
  match assoc_lookup s.discovered_nodes n with
  | some tr => tr.discovered_properties
  | none => []

/-- The discovery ledger of `b` extends the one of `a`: discovered nodes are
never removed, per-node discovered properties, gathered credentials and the
gathered-profile collection only grow (spec invariant I2 / property P1). -/
def ledger_grows (a b : Sim) : Prop :=
  (∀ n, assoc_mem a.discovered_nodes n = true →
    assoc_mem b.discovered_nodes n = true) ∧
  (∀ n i, i ∈ discovered_props a n → i ∈ discovered_props b n) ∧
  (∀ c, c ∈ a.gathered_credentials → c ∈ b.gathered_credentials) ∧
  a.gathered_profiles.length ≤ b.gathered_profiles.length

/-- Annotation of a directed edge of the environment graph. -/
def edge_lookup : List (String × String × EdgeKind) → String → String →
    Option EdgeKind
  | [], _, _ => none
  | (x, y, e) :: rest, a, b =>
    if x = a ∧ y = b then some e else edge_lookup rest a b

/-- The error class of a failed profile check (total restatement of
`classify_profile_error` for statements: the `none` profile case, which raises
in the source, is mapped arbitrarily). -/
def profile_fail_error (profile : Option Profile) (wo_roles : Bool) :
    ErrorType :=
  if wo_roles then .ROLES_WRONG
  else
    match profile with
    | some p => if p.username = some "NoAuth" then .NO_AUTH else .WRONG_AUTH
    | none => .WRONG_AUTH

/-- A local vulnerability with one profile-gated branch (`roles.admin`). -/
def vC3 : Vulnerability :=
  { vtype := .LOCAL, cost := 1, preconditions := [.sym "roles.admin"],
    outcomes := [.leakedNodesId []], reward_strings := ["r"] }

/-- An owned node carrying `vC3`. -/
def nodeTC3 : NodeInfo :=
  { agent_installed := true, privilege_level := .LocalUser,
    vulnerabilities := [("V", vC3)] }

/-- World: one owned, discovered node with the profile-gated vulnerability. -/
def simC3 : Sim :=
  { nodes := [("T", nodeTC3)], discovered_nodes := [("T", {})] }

/-- The failure result of the local exploit on `simC3`. -/
def resC3 : ActionResult :=
  { reward := -31, outcome := some (.exploitFailed none),
    precondition := some (.sym "roles.admin"), profile := none,
    reward_string := "r" }

/-- A local privilege-escalation vulnerability gated on property `a`. -/
def vC9 : Vulnerability :=
  { vtype := .LOCAL, cost := 1, preconditions := [.sym "a"],
    outcomes := [.privilegeEscalation .Admin], reward_strings := ["r"] }

/-- An owned node with property `a` and vulnerability `vC9`. -/
def nodeTC9 : NodeInfo :=
  { agent_installed := true, value := 5, privilege_level := .LocalUser,
    properties := ["a"], vulnerabilities := [("V", vC9)] }

/-- World: the owned node, property `a` discovered, escalation tag fresh. -/
def simC9 : Sim :=
  { nodes := [("T", nodeTC9)], identifiers := { properties := ["a"] },
    discovered_nodes :=
      [("T", { last_owned_at := some 0, discovered_properties := [0] })] }

/-- A local vulnerability leaking a credential on node `N2`. -/
def vC1 : Vulnerability :=
  { vtype := .LOCAL, cost := 1, preconditions := [.sym "a"],
    outcomes := [.leakedCredentials [("N2", "c2")]], reward_strings := ["r"] }

/-- An owned node carrying `vC1`. -/
def nodeTC1 : NodeInfo :=
  { agent_installed := true, privilege_level := .LocalUser,
    properties := ["a"], vulnerabilities := [("V", vC1)] }

/-- The leaked-at node, undiscovered, with an initial property `b`. -/
def nodeN2 : NodeInfo := { value := 5, properties := ["b"] }

/-- Ledger entry of `T` with a prior success of `(V, local, a, success)`. -/
def trTC1 : NodeTrackingInformation :=
  { last_owned_at := some 0, discovered_properties := [0],
    last_attack := [(("V", true, .sym "a", true), 0)] }

/-- World for the atomicity claim: the exploit will be classified `REPEATED`
(there is a prior success key) while its dry run discovers `N2`. -/
def simC1 : Sim :=
  { nodes := [("T", nodeTC1), ("N2", nodeN2)],
    identifiers := { properties := ["a", "b"], initial_properties := ["b"] },
    discovered_nodes := [("T", trTC1)] }

/-- Per-node copy of the vulnerability (cost 1). -/
def vC2n : Vulnerability :=
  { vtype := .LOCAL, cost := 1, preconditions := [.sym "roles.admin"],
    outcomes := [.leakedNodesId []], reward_strings := ["rn"] }

/-- Global-library copy of the same vulnerability id (cost 5). -/
def vC2g : Vulnerability :=
  { vtype := .LOCAL, cost := 5, preconditions := [.sym "roles.admin"],
    outcomes := [.leakedNodesId []], reward_strings := ["rg"] }

/-- Owned node carrying the per-node copy. -/
def nodeTC2 : NodeInfo :=
  { agent_installed := true, privilege_level := .LocalUser,
    vulnerabilities := [("V", vC2n)] }

/-- World with the id `V` both per-node and in the global library. -/
def simC2 : Sim :=
  { nodes := [("T", nodeTC2)], vulnerability_library := [("V", vC2g)],
    discovered_nodes := [("T", {})] }

/-- Connect target: `ssh` service allowing `c1`, value 7, reimaged at 10. -/
def srvC5 : NodeInfo :=
  { value := 7, last_reimaging := some 10,
    services := [{ name := "ssh", allowedCredentials := ["c1"] }],
    firewall := { incoming := [{ port := "ssh", permission := .ALLOW }] } }

/-- Connect source: owned, outgoing `ssh` allowed. -/
def srcC5 : NodeInfo :=
  { agent_installed := true, privilege_level := .LocalUser,
    firewall := { outgoing := [{ port := "ssh", permission := .ALLOW }] } }

/-- World: target previously owned at 5 but reimaged at 10 (not currently
owned); the claim would predict reward `value = 7` on reconnect. -/
def simC5 : Sim :=
  { nodes := [("S", srcC5), ("R", srvC5)], gathered_credentials := ["c1"],
    discovered_nodes :=
      [("S", { last_owned_at := some 0 }), ("R", { last_owned_at := some 5 })] }

/-- Same world with the target currently owned (no reimage). -/
def srvC5c : NodeInfo := { srvC5 with last_reimaging := none }

/-- World: target currently owned at 5, never reimaged. -/
def simC5c : Sim :=
  { nodes := [("S", srcC5), ("R", srvC5c)], gathered_credentials := ["c1"],
    discovered_nodes :=
      [("S", { last_owned_at := some 0 }), ("R", { last_owned_at := some 5 })] }

/-- An SSRF-gated precondition `ip.local AND username.alice`. -/
def preC7 : BExpr := .band (.sym "ip.local") (.sym "username.alice")

/-- Outcome-processor context of a remote exploit by `alice` without VPN. -/
def ctxC7 : OCtx :=
  { vulnerability_id := "V", node_id := "T", local_or_remote := false,
    failed_penalty := pFAILED_REMOTE_EXPLOIT,
    profile := some { username := some "alice" }, cost := 1, now := 3 }

/-- Outcome-processor context of the local exploit on `simC3`. -/
def ctxC3 : OCtx :=
  { vulnerability_id := "V", node_id := "T", local_or_remote := true,
    failed_penalty := pLOCAL_EXPLOIT_FAILED, profile := none, cost := 1,
    now := 5 }

/-- Every `last_attack` entry reads the same in `b` as in `a` (claim C4's
frame property for the failure path). -/
def la_pres (a b : Sim) : Prop :=
  ∀ n key, node_last_attack b n key = node_last_attack a n key

/-- Project an exploit run to the reward of its `ActionResult`. -/
def run_reward (r : Except KErr (Sim × ActionResult)) : Option Int :=
  match r with
  | .ok (_, res) => some res.reward
  | .error _ => none

deriving instance DecidableEq for Except

/-- Lemmas on association lists (dict access/update/insert). -/
theorem assoc_lookup_update_eq {α : Type} (l : List (String × α)) (k : String)
    (f : α → α) (m : String) :
    assoc_lookup (assoc_update l k f) m =
      if m = k then (assoc_lookup l k).map f else assoc_lookup l m := by
  induction l with
  | nil => by_cases h : m = k <;> simp [assoc_update, assoc_lookup, h]
  | cons hd tl ih =>
    obtain ⟨k1, v⟩ := hd
    by_cases h1 : k1 = k <;> by_cases h2 : k1 = m <;> by_cases h3 : m = k <;>
      simp_all [assoc_update, assoc_lookup]

/-- Appending a fresh entry only adds a binding for its key. -/
theorem assoc_lookup_append {α : Type} (l : List (String × α)) (n : String)
    (v : α) (m : String) :
    assoc_lookup (l ++ [(n, v)]) m =
      (match assoc_lookup l m with
       | some w => some w
       | none => if n = m then some v else none) := by
  induction l with
  | nil => simp [assoc_lookup]
  | cons hd tl ih =>
    obtain ⟨k1, w⟩ := hd
    by_cases h : k1 = m <;> simp [assoc_lookup, h, ih]

/-- Updating a key preserves membership. -/
theorem assoc_mem_update {α : Type} (l : List (String × α)) (k : String)
    (f : α → α) (m : String) :
    assoc_mem (assoc_update l k f) m = assoc_mem l m := by
  simp only [assoc_mem, assoc_lookup_update_eq]
  by_cases h : m = k
  · subst h
    simp only [if_pos rfl]
    cases assoc_lookup l m <;> simp
  · simp [h]

/-- Appending an entry preserves prior membership. -/
theorem assoc_mem_append {α : Type} (l : List (String × α)) (n : String)
    (v : α) (m : String) (h : assoc_mem l m = true) :
    assoc_mem (l ++ [(n, v)]) m = true := by
  simp only [assoc_mem, assoc_lookup_append] at h ⊢
  cases hl : assoc_lookup l m with
  | some w => simp
  | none => simp [hl] at h

/-- `LATERAL_MOVE` is the top of the annotation order. -/
theorem edge_kind_max_lateral (e : EdgeKind) :
    edge_kind_max e .LATERAL_MOVE = .LATERAL_MOVE := by
  cases e <;> rfl

/-- Annotating an edge with `LATERAL_MOVE` makes its annotation
`LATERAL_MOVE`, whether the edge existed or not. -/
theorem edge_lookup_upd_lateral (es : List (String × String × EdgeKind))
    (a b : String) :
    edge_lookup (upd_edges es a b .LATERAL_MOVE) a b = some .LATERAL_MOVE := by
  induction es with
  | nil => simp [upd_edges, edge_lookup]
  | cons hd rest ih =>
    obtain ⟨x, y, e⟩ := hd
    by_cases hxy : x = a ∧ y = b
    · simp [upd_edges, hxy, edge_lookup, edge_kind_max_lateral]
    · simp [upd_edges, hxy, edge_lookup, ih]

/-- Marking properties as discovered preserves ledger membership. -/
theorem mnpd_mem (s : Sim) (nid : String) (props : List String) (pg : Bool)
    (s3 : Sim) (k : Nat) (m : String)
    (h : mark_nodeproperties_as_discovered s nid props pg = .ok (s3, k))
    (hm : assoc_mem s.discovered_nodes m = true) :
    assoc_mem s3.discovered_nodes m = true := by
  unfold mark_nodeproperties_as_discovered at h
  split at h
  · exact absurd h (by simp)
  · split at h
    · split at h
      · simp only [Except.ok.injEq, Prod.mk.injEq] at h
        rw [← h.1]
        rw [assoc_mem_update]
        exact hm
      · simp only [Except.ok.injEq, Prod.mk.injEq] at h
        rw [← h.1]
        exact hm
    · split at h
      · simp only [Except.ok.injEq, Prod.mk.injEq] at h
        rw [← h.1]
        exact assoc_mem_append _ _ _ _ hm
      · simp only [Except.ok.injEq, Prod.mk.injEq] at h
        rw [← h.1]
        exact hm

/-- Marking all node properties as discovered preserves ledger membership. -/
theorem manpd_mem (s : Sim) (nid : String) (pg : Bool) (s3 : Sim) (k : Nat)
    (m : String)
    (h : mark_allnodeproperties_as_discovered s nid pg = .ok (s3, k))
    (hm : assoc_mem s.discovered_nodes m = true) :
    assoc_mem s3.discovered_nodes m = true := by
  unfold mark_allnodeproperties_as_discovered at h
  split at h
  · exact absurd h (by simp)
  · exact mnpd_mem _ _ _ _ _ _ _ h hm

/-- `__mark_node_as_owned` with `propagate` on a tracked node: the returned
history is the pre-call one; a currently-owned node is left untouched;
otherwise `last_owned_at` is stamped with `now`. -/
theorem mao_stamps (s : Sim) (nid : String) (priv : PrivilegeLevel) (now : Nat)
    (ni : NodeInfo) (s1 : Sim) (hist : Option Nat × Bool)
    (hlook : assoc_lookup s.nodes nid = some ni)
    (hmem : assoc_mem s.discovered_nodes nid = true)
    (h : mark_node_as_owned s nid priv true now = .ok (s1, hist)) :
    hist = is_node_owned_history s nid ni ∧
    (hist.2 = true → s1 = s) ∧
    (hist.2 = false →
      (assoc_lookup s1.discovered_nodes nid).map (fun tr => tr.last_owned_at) =
        some (some now)) := by
  unfold mark_node_as_owned at h
  split at h
  · rename_i heq
    rw [hlook] at heq
    exact absurd heq (by simp)
  · rename_i node_info heq
    rw [hlook] at heq
    simp only [Option.some.injEq] at heq
    subst heq
    split at h
    · rename_i hguard
      simp only [Bool.true_and, Bool.not_eq_true'] at hguard
      split at h
      · exact absurd h (by simp)
      · rename_i s3 k hmanpd
        simp only [Except.ok.injEq, Prod.mk.injEq] at h
        refine ⟨h.2.symm, ?_, ?_⟩
        · intro htrue
          rw [← h.2, hguard] at htrue
          exact absurd htrue (by simp)
        · intro _
          rw [← h.1]
          have hm2 : assoc_mem (ensure_tracked s nid).discovered_nodes nid =
              true := by
            simp [ensure_tracked, hmem]
          have hm3 := manpd_mem _ _ _ _ _ _ hmanpd hm2
          simp only [assoc_mem] at hm3
          simp only [assoc_lookup_update_eq, if_pos rfl]
          cases hl : assoc_lookup s3.discovered_nodes nid with
          | none => rw [hl] at hm3; simp at hm3
          | some tr => simp
    · rename_i hguard
      have hh2 : (is_node_owned_history s nid ni).2 = true := by
        cases hx : (is_node_owned_history s nid ni).2 with
        | true => rfl
        | false => exact absurd (by simp [hx]) hguard
      simp only [Except.ok.injEq, Prod.mk.injEq] at h
      refine ⟨h.2.symm, fun _ => h.1.symm, ?_⟩
      intro hfalse
      rw [← h.2, hh2] at hfalse
      exact absurd hfalse (by simp)

/-- The patch loop rebuilds the list, replacing every matching rule, and
reports whether any rule matched. -/
theorem aopr_loop_eq (rules : List FirewallRule) (port : String)
    (perm : RulePermission) :
    aopr_loop rules port perm =
      (rules.map (fun r => if r.port = port then
          { port := r.port, permission := perm, reason := "" } else r),
       rules.any (fun r => r.port = port)) := by
  induction rules with
  | nil => rfl
  | cons r rest ih => by_cases h : r.port = port <;> simp [aopr_loop, h, ih]

/-- C6 (counterexample): on a list with two rules for port `p`, overriding
`p` replaces *both* rules (and resets their reasons); the claim says only the
first matching rule changes and the later one is left unchanged. -/
theorem C6_counterexample :
    add_or_patch_rule
        [{ port := "p", permission := .ALLOW, reason := "r1" },
         { port := "p", permission := .ALLOW, reason := "r2" }] "p" .BLOCK =
      [{ port := "p", permission := .BLOCK, reason := "" },
       { port := "p", permission := .BLOCK, reason := "" }] ∧
    ({ port := "p", permission := .BLOCK, reason := "" } : FirewallRule) ≠
      { port := "p", permission := .ALLOW, reason := "r2" } :=
  ⟨by rfl, by decide⟩

/-- C6 (amended): `override_firewall_rule`'s patch loop replaces *every* rule
whose port matches (with a default-reason rule of the new permission), keeps
all other rules, and appends a single new rule exactly when no rule matched. -/
theorem C6_firewall_patch_all (rules : List FirewallRule) (port : String)
    (perm : RulePermission) :
    add_or_patch_rule rules port perm =
      rules.map (fun r => if r.port = port then
          { port := r.port, permission := perm, reason := "" } else r) ++
        (if rules.any (fun r => r.port = port) then []
         else [{ port := port, permission := perm, reason := "" }]) := by
  by_cases h : rules.any (fun r => r.port = port) <;>
    simp [add_or_patch_rule, aopr_loop_eq, h]

/-- C2 (counterexample): with the id `V` present both per-node (cost 1) and
in the global library (cost 5), the outcome processor resolves it to the
*global* entry: the failed local exploit is priced with the global cost
(`-5 - 30 = -35`, reward string `rg`), not the per-node one (`-31`). -/
theorem C2_counterexample :
    resolve_vulnerability simC2.vulnerability_library nodeTC2.vulnerabilities
        "V" = some vC2g ∧
    assoc_lookup nodeTC2.vulnerabilities "V" = some vC2n ∧
    vC2g ≠ vC2n ∧
    (exploit_local_vulnerability simC2 "T" "V" false 0 5).map
        (fun r => (r.2.reward, r.2.reward_string)) = .ok (-35, "rg") :=
  ⟨by rfl, by rfl, by decide, by decide⟩

/-- C2 (amended): whenever the vulnerability id is present in the global
library, `__process_outcome` resolves it to the global entry, regardless of
any per-node entry (globals shadow per-node entries). -/
theorem C2_global_shadows (library node_vulns : List (String × Vulnerability))
    (vid : String) (v : Vulnerability)
    (h : assoc_lookup library vid = some v) :
    resolve_vulnerability library node_vulns vid = some v := by
  simp [resolve_vulnerability, assoc_mem, h]

/-- Witness for `C2_global_shadows`. -/
theorem C2_global_shadows_witness :
    assoc_lookup [("V", vC2g)] "V" = some vC2g ∧
    resolve_vulnerability [("V", vC2g)] [("V", vC2n)] "V" = some vC2g :=
  ⟨by rfl, C2_global_shadows [("V", vC2g)] [("V", vC2n)] "V" vC2g (by rfl)⟩

/-- C3 (counterexample): a local exploit (entry-point failed penalty
`LOCAL_EXPLOIT_FAILED = -20`) whose single branch fails the profile check
returns `-cost + FAILED_REMOTE_EXPLOIT = -31`, not the claimed
`-cost + failed_penalty = -21`. -/
theorem C3_counterexample :
    exploit_local_vulnerability simC3 "T" "V" false 0 5 = .ok (simC3, resC3) ∧
    resC3.reward = -vC3.cost + pFAILED_REMOTE_EXPLOIT ∧
    -vC3.cost + pLOCAL_EXPLOIT_FAILED = -21 ∧ resC3.reward ≠ -21 :=
  ⟨by decide, by rfl, by rfl, by decide⟩

/-- C3 (amended): a branch whose full-mapping profile evaluation is false gets
the tentative `(error, -cost + FAILED_REMOTE_EXPLOIT, ExploitFailed)` — the
hard-coded remote penalty (-30), not the entry point's `failed_penalty` — with
the error classified `ROLES_WRONG` when the roles-lenient mapping holds, else
by the profile's username (`NO_AUTH` for `NoAuth`, `WRONG_AUTH` otherwise);
the world and `max_reward` are untouched. -/
theorem C3_profile_fail_penalty (ctx : OCtx) (st : LoopSt) (pre : BExpr)
    (pidx : Nat) (out : Outcome)
    (hgate : (contains_ip_local_symbol pre && !ip_local_flag ctx.profile) =
      false)
    (hfail : (check_profile ctx.profile pre).1 = false)
    (hcls : (check_profile ctx.profile pre).2 = true ∨ ctx.profile ≠ none) :
    process_branch ctx st pre pidx out =
      .ok { st with
            cands := push_if st.cands st.max_reward
              { error := profile_fail_error ctx.profile
                  (check_profile ctx.profile pre).2,
                reward := -ctx.cost + pFAILED_REMOTE_EXPLOIT, idx := pidx,
                outcome := .exploitFailed none } } := by
  unfold process_branch
  rw [hgate]
  simp only [Bool.false_eq_true, if_false, hfail, Bool.not_false, if_true]
  cases h2 : (check_profile ctx.profile pre).2 with
  | true => simp [classify_profile_error, profile_fail_error, h2]
  | false =>
    rcases hcls with hcl | hcl
    · rw [h2] at hcl
      exact absurd hcl (by simp)
    · cases hp : ctx.profile with
      | none => exact absurd hp hcl
      | some p => simp [classify_profile_error, profile_fail_error, h2, hp]

/-- Witness for `C3_profile_fail_penalty`: the `simC3` branch. -/
theorem C3_profile_fail_penalty_witness :
    ((contains_ip_local_symbol (.sym "roles.admin") &&
        !ip_local_flag ctxC3.profile) = false) ∧
    (check_profile ctxC3.profile (.sym "roles.admin")).1 = false ∧
    process_branch ctxC3 { sim := simC3 } (.sym "roles.admin") 0
        (.leakedNodesId []) =
      .ok { sim := simC3,
            cands := [{ error := .ROLES_WRONG, reward := -31, idx := 0,
                        outcome := .exploitFailed none }],
            max_reward := none } := by
  refine ⟨by decide, by decide, ?_⟩
  rw [C3_profile_fail_penalty ctxC3 { sim := simC3 } (.sym "roles.admin") 0
    (.leakedNodesId []) (by decide) (by decide) (Or.inl (by decide))]
  decide

/-- C7 (confirmed): a branch whose precondition mentions the symbol
`ip.local` while the acting profile's ip is not `local` scores the tentative
`(IP_LOCAL_NEEDED, -cost + NO_VPN, ExploitFailed)` without performing any
profile or property evaluation: the result holds for every loop state and
outcome, and the world and `max_reward` are untouched. -/
theorem C7_vpn_gate (ctx : OCtx) (st : LoopSt) (pre : BExpr) (pidx : Nat)
    (out : Outcome) (hsym : contains_ip_local_symbol pre = true)
    (hip : ip_local_flag ctx.profile = false) :
    process_branch ctx st pre pidx out =
      .ok { st with
            cands := push_if st.cands st.max_reward
              { error := .IP_LOCAL_NEEDED, reward := -ctx.cost + pNO_VPN,
                idx := pidx, outcome := .exploitFailed none } } := by
  simp [process_branch, hsym, hip]

/-- Witness for `C7_vpn_gate`: the spec's SSRF-gating example
(`ip.local AND username.alice` against `alice` without VPN, cost 1): tentative
reward `-1 + NO_VPN = -41`, error `IP_LOCAL_NEEDED`. -/
theorem C7_vpn_gate_witness :
    contains_ip_local_symbol preC7 = true ∧
    ip_local_flag ctxC7.profile = false ∧
    process_branch ctxC7 { sim := simC3 } preC7 0 (.leakedNodesId []) =
      .ok { sim := simC3,
            cands := [{ error := .IP_LOCAL_NEEDED, reward := -41, idx := 0,
                        outcome := .exploitFailed none }],
            max_reward := none } := by
  refine ⟨by decide, by decide, ?_⟩
  rw [C7_vpn_gate ctxC7 { sim := simC3 } preC7 0 (.leakedNodesId [])
    (by decide) (by decide)]
  decide

/-- C9 (code bug): on a successful local `PrivilegeEscalation` with a fresh
tag on an owned node, the dry-run scoring already appended the tag to the
node's properties, so the commit recomputation takes the `REPEAT` path and the
post-commit assertion `reward == max_reward` fails (here: recomputed -6 versus
selected 14): the kernel raises AssertionError on a legitimate success. -/
theorem C9_assertion_fails :
    exploit_local_vulnerability simC9 "T" "V" false 0 5 =
      .error .assertionFailed ∧
    nodeTC9.properties.contains (priv_tag .Admin) = false ∧
    is_node_owned_history simC9 "T" nodeTC9 = (some 0, true) :=
  ⟨by decide, by decide, by decide⟩

/-- C1 (code bug): an exploit whose selected branch errs (`REPEATED`, reward
`REPEAT - cost = -21`) still mutates the discovery ledger: the dry-run scoring
of the `LeakedCredentials` branch marks node `N2` as discovered (the
`propagate` flag is not forwarded at actions.py line 343), although the kernel
returns a failure `ActionResult`. -/
theorem C1_failure_mutates_ledger :
    (process_outcome simC1 .LOCAL "V" "T" true pLOCAL_EXPLOIT_FAILED false
        none 0 5).map
      (fun r => (r.2.1, r.2.2.reward, assoc_mem r.1.discovered_nodes "N2")) =
      .ok (false, -21, true) ∧
    assoc_mem simC1.discovered_nodes "N2" = false :=
  ⟨by decide, by decide⟩

/-- C4 (counterexample): a failure return (selected error ≠ NOERROR) leaves
the target's `last_attack` history without the failure key — nothing is
recorded, while the claim says the key is mapped to the current time. -/
theorem C4_counterexample :
    (process_outcome simC3 .LOCAL "V" "T" true pLOCAL_EXPLOIT_FAILED false
        none 0 5).map
      (fun r => (r.2.1,
        node_last_attack r.1 "T" ("V", true, .sym "roles.admin", false))) =
      .ok (false, none) := by decide

/-- C5 (counterexample): target `R` was owned at 5 and reimaged at 10, hence
not currently owned; the claim predicts reward `value(R) = 7` for this
connect, but the kernel returns `0.0` because `last_owned_at` is not `None`. -/
theorem C5_counterexample :
    (connect_to_remote_machine simC5 "S" "R" "ssh" "c1" false 20).map
      (fun r => (r.2.reward, r.2.outcome)) = .ok (0, some .lateralMove) ∧
    srvC5.value = 7 ∧
    is_node_owned_history simC5 "R" srvC5 = (some 5, false) :=
  ⟨by decide, by rfl, by decide⟩

/-- C5 (corrected): an authenticated connect that passes every validation
check reaches the ownership tail; a currently-owned target yields `REPEAT`
with no state change; otherwise the returned history is the pre-call one,
`last_owned_at` of the target is stamped with `now`, the `source -> target`
edge is annotated `LATERAL_MOVE`, and the reward is the target's value
exactly when the target was never previously owned (`last_owned_at` absent),
else `0.0`. -/
theorem C5_connect_accounting (s : Sim) (src tgt port cred : String)
    (thr : Bool) (now : Nat) (source_node target_node : NodeInfo)
    (hlookS : assoc_lookup s.nodes src = some source_node)
    (hlookT : assoc_lookup s.nodes tgt = some target_node)
    (hagent : source_node.agent_installed = true)
    (hdisc : assoc_mem s.discovered_nodes tgt = true)
    (hcred : s.gathered_credentials.contains cred = true)
    (hfwout : is_passing_firewall_rules source_node.firewall.outgoing port =
      true)
    (hfwin : is_passing_firewall_rules target_node.firewall.incoming port =
      true)
    (hlisten : target_node.services.any (fun sv => sv.name = port) = true)
    (hrun : target_node.status = MachineStatus.Running)
    (hauth : check_service_running_and_authorized target_node port cred =
      true) :
    connect_to_remote_machine s src tgt port cred thr now =
      connect_success s src tgt target_node now ∧
    ((is_node_owned_history s tgt target_node).2 = true →
      connect_success s src tgt target_node now =
        .ok (s, { reward := pREPEAT, outcome := some .lateralMove })) ∧
    ∀ s1 hist, mark_node_as_owned s tgt .LocalUser true now = .ok (s1, hist) →
      hist = is_node_owned_history s tgt target_node ∧
      (hist.2 = false →
        connect_to_remote_machine s src tgt port cred thr now =
          .ok (annotate_edge (ensure_tracked s1 tgt) src tgt .LATERAL_MOVE,
               { reward := if hist.1 = none then target_node.value else 0,
                 outcome := some .lateralMove }) ∧
        (assoc_lookup s1.discovered_nodes tgt).map
          (fun tr => tr.last_owned_at) = some (some now) ∧
        edge_lookup (annotate_edge (ensure_tracked s1 tgt) src tgt
          .LATERAL_MOVE).edges src tgt = some .LATERAL_MOVE) := by
  have hmemS : assoc_mem s.nodes src = true := by
    simp [assoc_mem, hlookS]
  have hmemT : assoc_mem s.nodes tgt = true := by
    simp [assoc_mem, hlookT]
  have hcredm : cred ∈ s.gathered_credentials := by
    simpa using hcred
  have hmain : connect_to_remote_machine s src tgt port cred thr now =
      connect_success s src tgt target_node now := by
    simp [connect_to_remote_machine, get_node, hlookS, hlookT, hmemS, hmemT,
      hagent, hdisc, hcred, hcredm, hfwout, hfwin, hlisten, hrun, hauth]
  refine ⟨hmain, ?_, ?_⟩
  · intro h2
    simp [connect_success, mark_node_as_owned, hlookT, h2]
  · intro s1 hist hmao
    obtain ⟨hh, hown, hstamp⟩ :=
      mao_stamps s tgt .LocalUser now target_node s1 hist hlookT hdisc hmao
    refine ⟨hh, fun h2 => ⟨?_, hstamp h2, edge_lookup_upd_lateral _ _ _⟩⟩
    rw [hmain]
    unfold connect_success
    rw [hmao]
    simp [h2]

/-- C5 witness: at the concrete world `simC5c` (target `R` currently owned),
the connect reaches the ownership tail and returns `REPEAT` with the state
unchanged. -/
theorem C5_connect_accounting_witness :
    connect_to_remote_machine simC5c "S" "R" "ssh" "c1" false 20 =
      connect_success simC5c "S" "R" srvC5c 20 ∧
    connect_success simC5c "S" "R" srvC5c 20 =
      .ok (simC5c, { reward := pREPEAT, outcome := some .lateralMove }) := by
  have h := C5_connect_accounting simC5c "S" "R" "ssh" "c1" false 20 srcC5
    srvC5c (by decide) (by decide) (by decide) (by decide) (by decide)
    (by decide) (by decide) (by decide) (by decide) (by decide)
  exact ⟨h.1, h.2.1 (by decide)⟩

/-- C10 (confirmed): a leaked profile string without a `username` key leaves
the gathered profiles and the new-profile count unchanged, both at the level
of the per-string step and of a `LeakedProfiles` outcome; its only possible
effect is the ip-local change flag, set exactly when the episode flag is still
down and the string contains `ip.local`. -/
theorem C10_no_username_frame (s : Sim) (ref str1 : String) (propagate : Bool)
    (h : (profile_str_to_dict str1).username = none) :
    (∀ (ipl prop2 : Bool) (profiles : List Profile) (cnt : Nat) (flag : Bool),
      mde_profile_step ipl prop2 (profiles, cnt, flag) str1 =
        (profiles, cnt,
         if !(ipl || flag) then str_contains str1 "ip.local" else flag)) ∧
    mark_discovered_entities s ref (.leakedProfiles [str1]) propagate =
      .ok (s, { profiles := 0,
                ip_change := !s.ip_local && str_contains str1 "ip.local" }) := by
  constructor
  · intro ipl prop2 profiles cnt flag
    simp [mde_profile_step, h]
  · simp only [mark_discovered_entities, List.foldl, mde_profile_step, h]
    cases hip : s.ip_local <;> simp <;> rw [← hip]

/-- Witness for `C10_no_username_frame`: the bare string `ip.local`. -/
theorem C10_no_username_frame_witness :
    (profile_str_to_dict "ip.local").username = none ∧
    mark_discovered_entities simC3 "T" (.leakedProfiles ["ip.local"]) true =
      .ok (simC3, { profiles := 0, ip_change := true }) := by
  refine ⟨by decide, ?_⟩
  rw [(C10_no_username_frame simC3 "T" "ip.local" true (by decide)).2]
  decide

/-- `la_pres` is reflexive. -/
theorem la_pres_refl (s : Sim) : la_pres s s := fun _ _ => rfl

/-- `la_pres` is transitive. -/
theorem la_pres_trans {a b c : Sim} (h1 : la_pres a b) (h2 : la_pres b c) :
    la_pres a c := fun n k => (h2 n k).trans (h1 n k)

/-- A state change not touching the ledger map preserves `last_attack`. -/
theorem la_pres_of_dn_eq {a b : Sim}
    (h : b.discovered_nodes = a.discovered_nodes) : la_pres a b := by
  intro n k
  simp [node_last_attack, h]

/-- Updating a ledger entry without touching its `last_attack` field
preserves every history lookup. -/
theorem la_pres_update (s : Sim) (nid : String)
    (f : NodeTrackingInformation → NodeTrackingInformation)
    (hf : ∀ tr, (f tr).last_attack = tr.last_attack) :
    la_pres s
      { s with discovered_nodes := assoc_update s.discovered_nodes nid f } := by
  intro n k
  simp only [node_last_attack, assoc_lookup_update_eq]
  by_cases h : n = nid
  · simp only [h, if_pos rfl]
    cases assoc_lookup s.discovered_nodes nid <;> simp [hf]
  · simp [h]

/-- Inserting a fresh ledger entry with an empty history preserves every
history lookup. -/
theorem la_pres_append (s : Sim) (nid : String)
    (tr : NodeTrackingInformation) (htr : tr.last_attack = []) :
    la_pres s
      { s with discovered_nodes := s.discovered_nodes ++ [(nid, tr)] } := by
  intro n k
  simp only [node_last_attack, assoc_lookup_append]
  cases h : assoc_lookup s.discovered_nodes n with
  | some w => simp
  | none => by_cases h2 : nid = n <;> simp [h2, htr, lookup_attack]

/-- `__mark_nodeproperties_as_discovered` never writes `last_attack`. -/
theorem mnpd_la (s : Sim) (nid : String) (ps : List String) (b : Bool)
    (s1 : Sim) (k : Nat)
    (h : mark_nodeproperties_as_discovered s nid ps b = .ok (s1, k)) :
    la_pres s s1 := by
  unfold mark_nodeproperties_as_discovered at h
  split at h
  · exact absurd h (by simp)
  · split at h
    · split at h
      · simp only [Except.ok.injEq, Prod.mk.injEq] at h
        rw [← h.1]
        exact la_pres_update s nid _ (fun tr => rfl)
      · simp only [Except.ok.injEq, Prod.mk.injEq] at h
        rw [← h.1]
        exact la_pres_refl s
    · split at h
      · simp only [Except.ok.injEq, Prod.mk.injEq] at h
        rw [← h.1]
        exact la_pres_append s nid _ rfl
      · simp only [Except.ok.injEq, Prod.mk.injEq] at h
        rw [← h.1]
        exact la_pres_refl s

/-- Ensuring a tracking entry preserves every history lookup. -/
theorem ensure_tracked_la (s : Sim) (nid : String) :
    la_pres s (ensure_tracked s nid) := by
  unfold ensure_tracked
  split
  · exact la_pres_refl s
  · exact la_pres_append s nid _ rfl

/-- `__mark_node_as_discovered` never writes `last_attack`. -/
theorem mnd_la (s : Sim) (nid : String) (b : Bool) (s1 : Sim) (k : Nat)
    (h : mark_node_as_discovered s nid b = .ok (s1, k)) : la_pres s s1 := by
  unfold mark_node_as_discovered at h
  split at h
  · exact absurd h (by simp)
  · split at h
    · exact absurd h (by simp)
    · by_cases hc : (b && !assoc_mem s.discovered_nodes nid) = true
      · rw [if_pos hc] at h
        exact la_pres_trans (la_pres_append s nid _ rfl)
          (mnpd_la _ nid _ b s1 k h)
      · rw [if_neg hc] at h
        exact mnpd_la s nid _ b s1 k h

/-- `__mark_allnodeproperties_as_discovered` never writes `last_attack`. -/
theorem manpd_la (s : Sim) (nid : String) (b : Bool) (s1 : Sim) (k : Nat)
    (h : mark_allnodeproperties_as_discovered s nid b = .ok (s1, k)) :
    la_pres s s1 := by
  unfold mark_allnodeproperties_as_discovered at h
  split at h
  · exact absurd h (by simp)
  · exact mnpd_la s nid _ b s1 k h

/-- `__mark_node_as_owned` never writes `last_attack` (it creates empty
entries and stamps `last_owned_at` only). -/
theorem mao_la (s : Sim) (nid : String) (lvl : PrivilegeLevel) (b : Bool)
    (now : Nat) (s1 : Sim) (r : Option Nat × Bool)
    (h : mark_node_as_owned s nid lvl b now = .ok (s1, r)) : la_pres s s1 := by
  unfold mark_node_as_owned at h
  split at h
  · exact absurd h (by simp)
  · split at h
    · split at h
      · exact absurd h (by simp)
      · rename_i hmark
        simp only [Except.ok.injEq, Prod.mk.injEq] at h
        rw [← h.1]
        refine la_pres_trans ?_ (la_pres_update _ nid _ (fun tr => rfl))
        refine la_pres_trans ?_ (manpd_la _ nid _ _ _ hmark)
        exact la_pres_trans (ensure_tracked_la s nid) (la_pres_of_dn_eq rfl)
    · simp only [Except.ok.injEq, Prod.mk.injEq] at h
      rw [← h.1]
      exact la_pres_refl s


/-- One leaked credential never writes `last_attack`. -/
theorem mde_cred_step_la (s : Sim) (c : DiscoveryCount) (ref : String)
    (b : Bool) (cr : String × String) (s1 : Sim) (c1 : DiscoveryCount)
    (h : mde_cred_step s c ref b cr = .ok (s1, c1)) : la_pres s s1 := by
  unfold mde_cred_step at h
  split at h
  · exact absurd h (by simp)
  · rename_i sA np hmnd
    split at h
    · exact absurd h (by simp)
    · simp only [Except.ok.injEq, Prod.mk.injEq] at h
      rw [← h.1]
      refine la_pres_trans (mnd_la _ _ _ sA np hmnd) (la_pres_of_dn_eq ?_)
      split <;> split <;> simp [annotate_edge]

/-- The `LeakedCredentials` loop never writes `last_attack`. -/
theorem mde_creds_la (ref : String) (b : Bool)
    (l : List (String × String)) :
    ∀ (s : Sim) (c : DiscoveryCount) (s1 : Sim) (c1 : DiscoveryCount),
    mde_creds ref b s c l = .ok (s1, c1) → la_pres s s1 := by
  induction l with
  | nil =>
    intro s c s1 c1 h
    simp only [mde_creds, Except.ok.injEq, Prod.mk.injEq] at h
    exact h.1 ▸ la_pres_refl s
  | cons cr rest ih =>
    intro s c s1 c1 h
    unfold mde_creds at h
    split at h
    · exact absurd h (by simp)
    · rename_i sA cA hstep
      exact la_pres_trans (mde_cred_step_la s c ref b cr sA cA hstep)
        (ih sA cA s1 c1 h)

/-- The `LeakedNodesId` loop never writes `last_attack`. -/
theorem mde_nodes_la (ref : String) (b : Bool) (l : List String) :
    ∀ (s : Sim) (c : DiscoveryCount) (s1 : Sim) (c1 : DiscoveryCount),
    mde_nodes ref b s c l = .ok (s1, c1) → la_pres s s1 := by
  induction l with
  | nil =>
    intro s c s1 c1 h
    simp only [mde_nodes, Except.ok.injEq, Prod.mk.injEq] at h
    exact h.1 ▸ la_pres_refl s
  | cons nid rest ih =>
    intro s c s1 c1 h
    unfold mde_nodes at h
    split at h
    · exact absurd h (by simp)
    · rename_i sA np hmnd
      split at h
      · exact absurd h (by simp)
      · refine la_pres_trans (la_pres_trans (mnd_la s nid b sA np hmnd)
          (la_pres_of_dn_eq ?_)) (ih _ _ s1 c1 h)
        split <;> simp [annotate_edge]

/-- `__mark_discovered_entities` never writes `last_attack`. -/
theorem mde_la (s : Sim) (ref : String) (out : Outcome) (b : Bool)
    (s1 : Sim) (c1 : DiscoveryCount)
    (h : mark_discovered_entities s ref out b = .ok (s1, c1)) :
    la_pres s s1 := by
  unfold mark_discovered_entities at h
  split at h
  · exact mde_creds_la ref b _ s _ s1 c1 h
  · exact mde_nodes_la ref b _ s _ s1 c1 h
  · simp only [Except.ok.injEq, Prod.mk.injEq] at h
    rw [← h.1]
    exact la_pres_of_dn_eq rfl
  · simp only [Except.ok.injEq, Prod.mk.injEq] at h
    rw [← h.1]
    exact la_pres_refl s

/-- Propagating global probed properties never writes `last_attack`. -/
theorem mgod_la (og : List String) (b : Bool) (ids : List String) :
    ∀ (s : Sim) (s1 : Sim),
    mark_global_on_discovered og b s ids = .ok s1 → la_pres s s1 := by
  induction ids with
  | nil =>
    intro s s1 h
    simp only [mark_global_on_discovered, Except.ok.injEq] at h
    exact h ▸ la_pres_refl s
  | cons nid rest ih =>
    intro s s1 h
    unfold mark_global_on_discovered at h
    split at h
    · exact absurd h (by simp)
    · rename_i sA kA hstep
      exact la_pres_trans (mnpd_la s nid og b sA kA hstep) (ih sA s1 h)

/-- The probe block never writes `last_attack`. -/
theorem probe_block_la (s : Sim) (nid : String) (gl gps mps : List String)
    (b : Bool) (s1 : Sim) (k : Nat)
    (h : probe_block s nid gl gps mps b = .ok (s1, k)) : la_pres s s1 := by
  unfold probe_block at h
  split at h
  · exact absurd h (by simp)
  · split at h
    · exact absurd h (by simp)
    · split at h
      · exact absurd h (by simp)
      · rename_i sA kA hmnpd
        split at h
        · exact absurd h (by simp)
        · rename_i sB hmgod
          simp only [Except.ok.injEq, Prod.mk.injEq] at h
          rw [← h.1]
          exact la_pres_trans (mnpd_la _ nid mps b sA kA hmnpd)
            (mgod_la _ b _ sA sB hmgod)

/-- The dry-run probe dispatch never writes `last_attack`. -/
theorem pb_probe_la (s2 : Sim) (nid : String) (out : Outcome) (s3 : Sim)
    (extra : Nat) (h : pb_probe s2 nid out = .ok (s3, extra)) :
    la_pres s2 s3 := by
  unfold pb_probe at h
  split at h
  · exact probe_block_la s2 nid _ _ _ false s3 extra h
  · simp only [Except.ok.injEq, Prod.mk.injEq] at h
    rw [← h.1]
    exact la_pres_refl s2

/-- The dry-run outcome adjustment never writes `last_attack`. -/
theorem pb_adjust_la (s : Sim) (nid : String) (out : Outcome) (r0 : Int)
    (now : Nat) (s1 : Sim) (r1 : Int)
    (h : pb_adjust s nid out r0 now = .ok (s1, r1)) : la_pres s s1 := by
  unfold pb_adjust at h
  split at h
  · split at h
    · exact absurd h (by simp)
    · split at h
      · simp only [Except.ok.injEq, Prod.mk.injEq] at h
        rw [← h.1]
        exact la_pres_refl s
      · split at h
        · exact absurd h (by simp)
        · rename_i hmao
          simp only [Except.ok.injEq, Prod.mk.injEq] at h
          rw [← h.1]
          exact la_pres_trans (mao_la _ _ _ _ _ _ _ hmao)
            (la_pres_of_dn_eq rfl)
  · split at h
    · exact absurd h (by simp)
    · split at h
      · exact absurd h (by simp)
      · rename_i hmao
        simp only [Except.ok.injEq, Prod.mk.injEq] at h
        rw [← h.1]
        exact mao_la _ _ _ _ _ _ _ hmao
  · simp only [Except.ok.injEq, Prod.mk.injEq] at h
    rw [← h.1]
    exact la_pres_refl s
  · simp only [Except.ok.injEq, Prod.mk.injEq] at h
    rw [← h.1]
    exact la_pres_refl s
  · simp only [Except.ok.injEq, Prod.mk.injEq] at h
    rw [← h.1]
    exact la_pres_refl s

/-- The success path of a branch never writes `last_attack`. -/
theorem pbne_la (ctx : OCtx) (st : LoopSt) (pre : BExpr) (pidx : Nat)
    (out : Outcome) (r0 : Int) (st1 : LoopSt)
    (h : process_branch_noerror ctx st pre pidx out r0 = .ok st1) :
    la_pres st.sim st1.sim := by
  unfold process_branch_noerror at h
  split at h
  · exact absurd h (by simp)
  · rename_i sA rA hadj
    split at h
    · exact absurd h (by simp)
    · rename_i sB cntB hmde
      split at h
      · exact absurd h (by simp)
      · rename_i sC kC hprobe
        have base : la_pres st.sim sC :=
          la_pres_trans (la_pres_trans
            (pb_adjust_la st.sim ctx.node_id out r0 ctx.now sA rA hadj)
            (mde_la sA ctx.node_id out false sB cntB hmde))
            (pb_probe_la sB ctx.node_id out sC kC hprobe)
        split at h
        · exact absurd h (by simp)
        · split at h
          · split at h
            · simp only [Except.ok.injEq] at h
              rw [← h]
              exact base
            · simp only [Except.ok.injEq] at h
              rw [← h]
              exact base
          · simp only [Except.ok.injEq] at h
            rw [← h]
            exact base

/-- One loop iteration never writes `last_attack`. -/
theorem process_branch_la (ctx : OCtx) (st : LoopSt) (pre : BExpr)
    (pidx : Nat) (out : Outcome) (st1 : LoopSt)
    (h : process_branch ctx st pre pidx out = .ok st1) :
    la_pres st.sim st1.sim := by
  unfold process_branch at h
  split at h
  · simp only [Except.ok.injEq] at h
    rw [← h]
    exact la_pres_refl st.sim
  · split at h
    · split at h
      · exact absurd h (by simp)
      · simp only [Except.ok.injEq] at h
        rw [← h]
        exact la_pres_refl st.sim
    · split at h
      · exact absurd h (by simp)
      · split at h
        · simp only [Except.ok.injEq] at h
          rw [← h]
          exact la_pres_refl st.sim
        · split at h
          · simp only [Except.ok.injEq] at h
            rw [← h]
            exact la_pres_refl st.sim
          · exact pbne_la ctx st pre pidx out _ st1 h

/-- The whole branch loop never writes `last_attack`. -/
theorem process_branches_la (ctx : OCtx) (l : List (BExpr × Nat × Outcome)) :
    ∀ (st st1 : LoopSt), process_branches ctx st l = .ok st1 →
    la_pres st.sim st1.sim := by
  induction l with
  | nil =>
    intro st st1 h
    simp only [process_branches, Except.ok.injEq] at h
    exact h ▸ la_pres_refl st.sim
  | cons b rest ih =>
    intro st st1 h
    unfold process_branches at h
    split at h
    · exact absurd h (by simp)
    · rename_i stA hb
      exact la_pres_trans (process_branch_la ctx st b.1 b.2.1 b.2.2 stA hb)
        (ih stA st1 h)

/-- The failure return leaves the state exactly as the loop left it. -/
theorem failure_path_state (s : Sim) (ctx : OCtx) (cand : Cand)
    (pre : BExpr) (rs : String) (s1 : Sim) (flag : Bool)
    (res : ActionResult)
    (h : failure_path s ctx cand pre rs = .ok (s1, flag, res)) :
    s1 = s ∧ flag = false := by
  unfold failure_path at h
  split at h
  · exact absurd h (by simp)
  · simp only [Except.ok.injEq, Prod.mk.injEq] at h
    exact ⟨h.1.symm, h.2.1.symm⟩

/-- A commit that returns at all returns `succeeded = true`. -/
theorem commit_phase_flag (s0 : Sim) (ctx : OCtx) (cand : Cand)
    (pre : BExpr) (rs : String) (lo : Outcome) (s1 : Sim) (flag : Bool)
    (res : ActionResult)
    (h : commit_phase s0 ctx cand pre rs lo = .ok (s1, flag, res)) :
    flag = true := by
  unfold commit_phase at h
  split at h
  · exact absurd h (by simp)
  · split at h
    · exact absurd h (by simp)
    · split at h
      · exact absurd h (by simp)
      · split at h
        · exact absurd h (by simp)
        · split at h
          · simp only [Except.ok.injEq, Prod.mk.injEq] at h
            exact h.2.1.symm
          · exact absurd h (by simp)

/-- A failing dispatch returns the loop's state unchanged. -/
theorem po_dispatch_state (ctx : OCtx) (v : Vulnerability) (tie : Nat)
    (st : LoopSt) (s1 : Sim) (res : ActionResult)
    (h : po_dispatch ctx v tie st = .ok (s1, false, res)) : s1 = st.sim := by
  unfold po_dispatch at h
  split at h
  · exact absurd h (by simp)
  · split at h
    · exact absurd h (by simp)
    · split at h
      · exact absurd h (by simp)
      · split at h
        all_goals first
          | (split at h
             · exact (failure_path_state _ _ _ _ _ _ _ _ h).1
             · split at h
               · exact absurd h (by simp)
               · exact absurd (commit_phase_flag _ _ _ _ _ _ _ _ _ h)
                   (by simp))
          | exact absurd h (by simp)

/-- C4 (amended): whenever `__process_outcome` returns a failure
(`succeeded = false`, i.e. the selected branch error is not `NOERROR`), no
`last_attack` history entry of any node has changed: the failure key is looked
up for the repeat re-classification but never recorded. -/
theorem C4_no_failure_record (s : Sim) (et : VulnerabilityType)
    (vid nid : String) (lor : Bool) (fp : Int) (thr : Bool)
    (profile : Option Profile) (tie now : Nat) (s1 : Sim)
    (res : ActionResult)
    (h : process_outcome s et vid nid lor fp thr profile tie now =
      .ok (s1, false, res)) :
    ∀ n key, node_last_attack s1 n key = node_last_attack s n key := by
  unfold process_outcome at h
  split at h
  · exact absurd h (by simp)
  · split at h
    · simp only [Except.ok.injEq, Prod.mk.injEq] at h
      exact h.1 ▸ la_pres_refl s
    · split at h
      · split at h
        · exact absurd h (by simp)
        · simp only [Except.ok.injEq, Prod.mk.injEq] at h
          exact h.1 ▸ la_pres_refl s
      · split at h
        · exact absurd h (by simp)
        · split at h
          · exact absurd h (by simp)
          · rename_i st hloop
            rw [po_dispatch_state _ _ _ _ _ _ h]
            exact process_branches_la _ _ _ _ hloop

/-- Witness for `C4_no_failure_record`: the `simC3` failure run. -/
theorem C4_no_failure_record_witness :
    (process_outcome simC3 .LOCAL "V" "T" true pLOCAL_EXPLOIT_FAILED false
      none 0 5 = .ok (simC3, false, resC3)) ∧
    node_last_attack simC3 "T" ("V", true, .sym "roles.admin", false) =
      node_last_attack simC3 "T" ("V", true, .sym "roles.admin", false) :=
  ⟨by decide,
   C4_no_failure_record simC3 .LOCAL "V" "T" true pLOCAL_EXPLOIT_FAILED false
     none 0 5 simC3 resC3 (by decide) "T"
     ("V", true, .sym "roles.admin", false)⟩

/-- `ledger_grows` is reflexive. -/
theorem grows_refl (s : Sim) : ledger_grows s s :=
  ⟨fun _ h => h, fun _ _ h => h, fun _ h => h, le_refl _⟩

/-- `ledger_grows` is transitive. -/
theorem grows_trans {a b c : Sim} (h1 : ledger_grows a b)
    (h2 : ledger_grows b c) : ledger_grows a c :=
  ⟨fun n h => h2.1 n (h1.1 n h),
   fun n i h => h2.2.1 n i (h1.2.1 n i h),
   fun x h => h2.2.2.1 x (h1.2.2.1 x h),
   le_trans h1.2.2.2 h2.2.2.2⟩

/-- A state change leaving all three ledger fields intact grows the ledger. -/
theorem grows_of_parts {a b : Sim}
    (h1 : b.discovered_nodes = a.discovered_nodes)
    (h2 : b.gathered_credentials = a.gathered_credentials)
    (h3 : b.gathered_profiles = a.gathered_profiles) : ledger_grows a b := by
  refine ⟨?_, ?_, ?_, ?_⟩
  · intro n h
    rw [assoc_mem, h1]
    exact h
  · intro n i h
    rw [discovered_props, h1]
    exact h
  · intro c h
    rw [h2]
    exact h
  · rw [h3]

/-- Updating one entry with a function that grows its property set grows the
ledger. -/
theorem grows_update_dp (s : Sim) (nid : String)
    (f : NodeTrackingInformation → NodeTrackingInformation)
    (hf : ∀ tr i, i ∈ tr.discovered_properties →
      i ∈ (f tr).discovered_properties) :
    ledger_grows s
      { s with discovered_nodes := assoc_update s.discovered_nodes nid f } := by
  refine ⟨?_, ?_, fun _ h => h, le_refl _⟩
  · intro n hmem
    rw [assoc_mem, assoc_lookup_update_eq]
    by_cases h : n = nid
    · rw [if_pos h]
      rw [assoc_mem, h] at hmem
      cases hl : assoc_lookup s.discovered_nodes nid with
      | none => rw [hl] at hmem; simp at hmem
      | some tr => simp
    · rw [if_neg h]
      exact hmem
  · intro n i hi
    unfold discovered_props at hi ⊢
    rw [assoc_lookup_update_eq]
    by_cases h : n = nid
    · rw [if_pos h]
      rw [h] at hi
      cases hl : assoc_lookup s.discovered_nodes nid with
      | none =>
        simp only [hl] at hi
        exact absurd hi (by simp)
      | some tr =>
        simp only [hl] at hi
        simp only [hl, Option.map_some']
        exact hf tr i hi
    · rw [if_neg h]
      exact hi

/-- Appending a fresh entry grows the ledger. -/
theorem grows_append_node (s : Sim) (nid : String)
    (tr : NodeTrackingInformation) :
    ledger_grows s
      { s with discovered_nodes := s.discovered_nodes ++ [(nid, tr)] } := by
  refine ⟨?_, ?_, fun _ h => h, le_refl _⟩
  · intro n hmem
    exact assoc_mem_append _ _ _ _ hmem
  · intro n i hi
    unfold discovered_props at hi ⊢
    cases hl : assoc_lookup s.discovered_nodes n with
    | none => rw [hl] at hi; exact absurd hi (by simp)
    | some w =>
      rw [hl] at hi
      simp only [assoc_lookup_append, hl]
      exact hi

/-- Adding gathered credentials grows the ledger. -/
theorem grows_creds (s : Sim) (cs : List String) :
    ledger_grows s
      { s with gathered_credentials := s.gathered_credentials ++ cs } := by
  refine ⟨fun _ h => h, fun _ _ h => h, ?_, le_refl _⟩
  intro c h
  simp only [List.mem_append]
  exact Or.inl h

/-- Replacing the profile collection by a longer one grows the ledger. -/
theorem grows_profiles_len (s : Sim) (ps : List Profile)
    (hlen : s.gathered_profiles.length ≤ ps.length) :
    ledger_grows s { s with gathered_profiles := ps } :=
  ⟨fun _ h => h, fun _ _ h => h, fun _ h => h, hlen⟩

/-- `ensure_tracked` grows the ledger. -/
theorem ensure_tracked_grows (s : Sim) (nid : String) :
    ledger_grows s (ensure_tracked s nid) := by
  unfold ensure_tracked
  split
  · exact grows_refl s
  · exact grows_append_node s nid {}

/-- `__mark_nodeproperties_as_discovered` grows the ledger. -/
theorem mnpd_grows (s : Sim) (nid : String) (ps : List String) (b : Bool)
    (s1 : Sim) (k : Nat)
    (h : mark_nodeproperties_as_discovered s nid ps b = .ok (s1, k)) :
    ledger_grows s s1 := by
  unfold mark_nodeproperties_as_discovered at h
  split at h
  · exact absurd h (by simp)
  · split at h
    · split at h
      · simp only [Except.ok.injEq, Prod.mk.injEq] at h
        rw [← h.1]
        refine grows_update_dp s nid _ ?_
        intro tr i hi
        simp only [List.mem_append]
        exact Or.inl hi
      · simp only [Except.ok.injEq, Prod.mk.injEq] at h
        rw [← h.1]
        exact grows_refl s
    · split at h
      · simp only [Except.ok.injEq, Prod.mk.injEq] at h
        rw [← h.1]
        exact grows_append_node s nid _
      · simp only [Except.ok.injEq, Prod.mk.injEq] at h
        rw [← h.1]
        exact grows_refl s

/-- `__mark_node_as_discovered` grows the ledger. -/
theorem mnd_grows (s : Sim) (nid : String) (b : Bool) (s1 : Sim) (k : Nat)
    (h : mark_node_as_discovered s nid b = .ok (s1, k)) : ledger_grows s s1 := by
  unfold mark_node_as_discovered at h
  split at h
  · exact absurd h (by simp)
  · split at h
    · exact absurd h (by simp)
    · by_cases hc : (b && !assoc_mem s.discovered_nodes nid) = true
      · rw [if_pos hc] at h
        exact grows_trans (grows_append_node s nid _)
          (mnpd_grows _ nid _ b s1 k h)
      · rw [if_neg hc] at h
        exact mnpd_grows s nid _ b s1 k h

/-- `__mark_allnodeproperties_as_discovered` grows the ledger. -/
theorem manpd_grows (s : Sim) (nid : String) (b : Bool) (s1 : Sim) (k : Nat)
    (h : mark_allnodeproperties_as_discovered s nid b = .ok (s1, k)) :
    ledger_grows s s1 := by
  unfold mark_allnodeproperties_as_discovered at h
  split at h
  · exact absurd h (by simp)
  · exact mnpd_grows s nid _ b s1 k h

/-- `__mark_node_as_owned` grows the ledger. -/
theorem mao_grows (s : Sim) (nid : String) (lvl : PrivilegeLevel) (b : Bool)
    (now : Nat) (s1 : Sim) (r : Option Nat × Bool)
    (h : mark_node_as_owned s nid lvl b now = .ok (s1, r)) :
    ledger_grows s s1 := by
  unfold mark_node_as_owned at h
  split at h
  · exact absurd h (by simp)
  · split at h
    · split at h
      · exact absurd h (by simp)
      · rename_i hmark
        simp only [Except.ok.injEq, Prod.mk.injEq] at h
        rw [← h.1]
        refine grows_trans ?_ (grows_update_dp _ nid _ (fun tr i hi => hi))
        refine grows_trans ?_ (manpd_grows _ nid _ _ _ hmark)
        exact grows_trans (ensure_tracked_grows s nid)
          (grows_of_parts rfl rfl rfl)
    · simp only [Except.ok.injEq, Prod.mk.injEq] at h
      rw [← h.1]
      exact grows_refl s

/-- One leaked credential grows the ledger. -/
theorem mde_cred_step_grows (s : Sim) (c : DiscoveryCount) (ref : String)
    (b : Bool) (cr : String × String) (s1 : Sim) (c1 : DiscoveryCount)
    (h : mde_cred_step s c ref b cr = .ok (s1, c1)) : ledger_grows s s1 := by
  unfold mde_cred_step at h
  split at h
  · exact absurd h (by simp)
  · rename_i sA np hmnd
    split at h
    · exact absurd h (by simp)
    · simp only [Except.ok.injEq, Prod.mk.injEq] at h
      rw [← h.1]
      refine grows_trans (mnd_grows _ _ _ sA np hmnd) ?_
      split <;> split
      all_goals first
        | exact grows_trans (grows_creds _ _) (grows_of_parts rfl rfl rfl)
        | exact grows_of_parts rfl rfl rfl

/-- The `LeakedCredentials` loop grows the ledger. -/
theorem mde_creds_grows (ref : String) (b : Bool)
    (l : List (String × String)) :
    ∀ (s : Sim) (c : DiscoveryCount) (s1 : Sim) (c1 : DiscoveryCount),
    mde_creds ref b s c l = .ok (s1, c1) → ledger_grows s s1 := by
  induction l with
  | nil =>
    intro s c s1 c1 h
    simp only [mde_creds, Except.ok.injEq, Prod.mk.injEq] at h
    exact h.1 ▸ grows_refl s
  | cons cr rest ih =>
    intro s c s1 c1 h
    unfold mde_creds at h
    split at h
    · exact absurd h (by simp)
    · rename_i sA cA hstep
      exact grows_trans (mde_cred_step_grows s c ref b cr sA cA hstep)
        (ih sA cA s1 c1 h)

/-- The `LeakedNodesId` loop grows the ledger. -/
theorem mde_nodes_grows (ref : String) (b : Bool) (l : List String) :
    ∀ (s : Sim) (c : DiscoveryCount) (s1 : Sim) (c1 : DiscoveryCount),
    mde_nodes ref b s c l = .ok (s1, c1) → ledger_grows s s1 := by
  induction l with
  | nil =>
    intro s c s1 c1 h
    simp only [mde_nodes, Except.ok.injEq, Prod.mk.injEq] at h
    exact h.1 ▸ grows_refl s
  | cons nid rest ih =>
    intro s c s1 c1 h
    unfold mde_nodes at h
    split at h
    · exact absurd h (by simp)
    · rename_i sA np hmnd
      split at h
      · exact absurd h (by simp)
      · refine grows_trans (grows_trans (mnd_grows s nid b sA np hmnd) ?_)
          (ih _ _ s1 c1 h)
        split
        · exact grows_of_parts rfl rfl rfl
        · exact grows_refl _

/-- Updating matching profiles preserves the collection length. -/
theorem ump_len (u : String) (d : PDict) (b : Bool) (l : List Profile) :
    (update_matching_profiles u d b l).1.length = l.length := by
  induction l with
  | nil => rfl
  | cons pr rest ih =>
    unfold update_matching_profiles
    split <;> simp [ih]

/-- One leaked profile string never shrinks the profile collection. -/
theorem mde_profile_step_len (ipl b : Bool) (acc : List Profile × Nat × Bool)
    (s1 : String) :
    acc.1.length ≤ (mde_profile_step ipl b acc s1).1.length := by
  unfold mde_profile_step
  cases hu : (profile_str_to_dict s1).username with
  | none => simp [hu]
  | some u =>
    simp only [hu]
    split
    · simp [ump_len]
    · split <;> simp

/-- The `LeakedProfiles` fold never shrinks the profile collection. -/
theorem mde_profiles_fold_len (ipl b : Bool) (l : List String) :
    ∀ acc : List Profile × Nat × Bool,
    acc.1.length ≤ (l.foldl (mde_profile_step ipl b) acc).1.length := by
  induction l with
  | nil => intro acc; exact le_refl _
  | cons s1 rest ih =>
    intro acc
    exact le_trans (mde_profile_step_len ipl b acc s1)
      (ih (mde_profile_step ipl b acc s1))

/-- `__mark_discovered_entities` grows the ledger. -/
theorem mde_grows (s : Sim) (ref : String) (out : Outcome) (b : Bool)
    (s1 : Sim) (c1 : DiscoveryCount)
    (h : mark_discovered_entities s ref out b = .ok (s1, c1)) :
    ledger_grows s s1 := by
  unfold mark_discovered_entities at h
  split at h
  · exact mde_creds_grows ref b _ s _ s1 c1 h
  · exact mde_nodes_grows ref b _ s _ s1 c1 h
  · rename_i strs
    simp only [Except.ok.injEq, Prod.mk.injEq] at h
    rw [← h.1]
    exact grows_profiles_len s _
      (mde_profiles_fold_len s.ip_local b strs (s.gathered_profiles, 0, false))
  · simp only [Except.ok.injEq, Prod.mk.injEq] at h
    rw [← h.1]
    exact grows_refl s

/-- Propagating global probed properties grows the ledger. -/
theorem mgod_grows (og : List String) (b : Bool) (ids : List String) :
    ∀ (s : Sim) (s1 : Sim),
    mark_global_on_discovered og b s ids = .ok s1 → ledger_grows s s1 := by
  induction ids with
  | nil =>
    intro s s1 h
    simp only [mark_global_on_discovered, Except.ok.injEq] at h
    exact h ▸ grows_refl s
  | cons nid rest ih =>
    intro s s1 h
    unfold mark_global_on_discovered at h
    split at h
    · exact absurd h (by simp)
    · rename_i sA kA hstep
      exact grows_trans (mnpd_grows s nid og b sA kA hstep) (ih sA s1 h)

/-- The probe block grows the ledger. -/
theorem probe_block_grows (s : Sim) (nid : String) (gl gps mps : List String)
    (b : Bool) (s1 : Sim) (k : Nat)
    (h : probe_block s nid gl gps mps b = .ok (s1, k)) : ledger_grows s s1 := by
  unfold probe_block at h
  split at h
  · exact absurd h (by simp)
  · split at h
    · exact absurd h (by simp)
    · split at h
      · exact absurd h (by simp)
      · rename_i sA kA hmnpd
        split at h
        · exact absurd h (by simp)
        · rename_i sB hmgod
          simp only [Except.ok.injEq, Prod.mk.injEq] at h
          rw [← h.1]
          exact grows_trans (mnpd_grows _ nid mps b sA kA hmnpd)
            (mgod_grows _ b _ sA sB hmgod)

/-- The dry-run probe dispatch grows the ledger. -/
theorem pb_probe_grows (s2 : Sim) (nid : String) (out : Outcome) (s3 : Sim)
    (extra : Nat) (h : pb_probe s2 nid out = .ok (s3, extra)) :
    ledger_grows s2 s3 := by
  unfold pb_probe at h
  split at h
  · exact probe_block_grows s2 nid _ _ _ false s3 extra h
  · simp only [Except.ok.injEq, Prod.mk.injEq] at h
    rw [← h.1]
    exact grows_refl s2

/-- The commit probe dispatch grows the ledger. -/
theorem commit_probe_grows (s2 : Sim) (nid : String) (w lo : Outcome)
    (s3 : Sim) (extra : Nat) (h : commit_probe s2 nid w lo = .ok (s3, extra)) :
    ledger_grows s2 s3 := by
  unfold commit_probe at h
  split at h
  · split at h
    · exact probe_block_grows s2 nid _ _ _ true s3 extra h
    · exact absurd h (by simp)
  · simp only [Except.ok.injEq, Prod.mk.injEq] at h
    rw [← h.1]
    exact grows_refl s2

/-- The dry-run outcome adjustment grows the ledger. -/
theorem pb_adjust_grows (s : Sim) (nid : String) (out : Outcome) (r0 : Int)
    (now : Nat) (s1 : Sim) (r1 : Int)
    (h : pb_adjust s nid out r0 now = .ok (s1, r1)) : ledger_grows s s1 := by
  unfold pb_adjust at h
  split at h
  · split at h
    · exact absurd h (by simp)
    · split at h
      · simp only [Except.ok.injEq, Prod.mk.injEq] at h
        rw [← h.1]
        exact grows_refl s
      · split at h
        · exact absurd h (by simp)
        · rename_i hmao
          simp only [Except.ok.injEq, Prod.mk.injEq] at h
          rw [← h.1]
          exact grows_trans (mao_grows _ _ _ _ _ _ _ hmao)
            (grows_of_parts rfl rfl rfl)
  · split at h
    · exact absurd h (by simp)
    · split at h
      · exact absurd h (by simp)
      · rename_i hmao
        simp only [Except.ok.injEq, Prod.mk.injEq] at h
        rw [← h.1]
        exact mao_grows _ _ _ _ _ _ _ hmao
  · simp only [Except.ok.injEq, Prod.mk.injEq] at h
    rw [← h.1]
    exact grows_refl s
  · simp only [Except.ok.injEq, Prod.mk.injEq] at h
    rw [← h.1]
    exact grows_refl s
  · simp only [Except.ok.injEq, Prod.mk.injEq] at h
    rw [← h.1]
    exact grows_refl s

/-- The success path of one branch grows the ledger. -/
theorem pbne_grows (ctx : OCtx) (st : LoopSt) (pre : BExpr) (pidx : Nat)
    (out : Outcome) (r0 : Int) (st1 : LoopSt)
    (h : process_branch_noerror ctx st pre pidx out r0 = .ok st1) :
    ledger_grows st.sim st1.sim := by
  unfold process_branch_noerror at h
  split at h
  · exact absurd h (by simp)
  · rename_i sA rA hadj
    split at h
    · exact absurd h (by simp)
    · rename_i sB cntB hmde
      split at h
      · exact absurd h (by simp)
      · rename_i sC kC hprobe
        have base : ledger_grows st.sim sC :=
          grows_trans (grows_trans
            (pb_adjust_grows st.sim ctx.node_id out r0 ctx.now sA rA hadj)
            (mde_grows sA ctx.node_id out false sB cntB hmde))
            (pb_probe_grows sB ctx.node_id out sC kC hprobe)
        split at h
        · exact absurd h (by simp)
        · split at h
          · split at h
            · simp only [Except.ok.injEq] at h
              rw [← h]
              exact base
            · simp only [Except.ok.injEq] at h
              rw [← h]
              exact base
          · simp only [Except.ok.injEq] at h
            rw [← h]
            exact base

/-- One loop iteration grows the ledger. -/
theorem process_branch_grows (ctx : OCtx) (st : LoopSt) (pre : BExpr)
    (pidx : Nat) (out : Outcome) (st1 : LoopSt)
    (h : process_branch ctx st pre pidx out = .ok st1) :
    ledger_grows st.sim st1.sim := by
  unfold process_branch at h
  split at h
  · simp only [Except.ok.injEq] at h
    rw [← h]
    exact grows_refl st.sim
  · split at h
    · split at h
      · exact absurd h (by simp)
      · simp only [Except.ok.injEq] at h
        rw [← h]
        exact grows_refl st.sim
    · split at h
      · exact absurd h (by simp)
      · split at h
        · simp only [Except.ok.injEq] at h
          rw [← h]
          exact grows_refl st.sim
        · split at h
          · simp only [Except.ok.injEq] at h
            rw [← h]
            exact grows_refl st.sim
          · exact pbne_grows ctx st pre pidx out _ st1 h

/-- The whole branch loop grows the ledger. -/
theorem process_branches_grows (ctx : OCtx)
    (l : List (BExpr × Nat × Outcome)) :
    ∀ (st st1 : LoopSt), process_branches ctx st l = .ok st1 →
    ledger_grows st.sim st1.sim := by
  induction l with
  | nil =>
    intro st st1 h
    simp only [process_branches, Except.ok.injEq] at h
    exact h ▸ grows_refl st.sim
  | cons b rest ih =>
    intro st st1 h
    unfold process_branches at h
    split at h
    · exact absurd h (by simp)
    · rename_i stA hb
      exact grows_trans (process_branch_grows ctx st b.1 b.2.1 b.2.2 stA hb)
        (ih stA st1 h)

/-- The commit outcome adjustment grows the ledger. -/
theorem commit_adjust_grows (s0 : Sim) (ctx : OCtx) (w lo : Outcome)
    (r0 : Int) (s1 : Sim) (r1 : Int)
    (h : commit_adjust s0 ctx w lo r0 = .ok (s1, r1)) : ledger_grows s0 s1 := by
  unfold commit_adjust at h
  split at h
  · split at h
    · exact absurd h (by simp)
    · split at h
      · simp only [Except.ok.injEq, Prod.mk.injEq] at h
        rw [← h.1]
        exact grows_refl s0
      · split at h
        · exact absurd h (by simp)
        · rename_i hmao
          simp only [Except.ok.injEq, Prod.mk.injEq] at h
          rw [← h.1]
          exact grows_trans (mao_grows _ _ _ _ _ _ _ hmao)
            (grows_of_parts rfl rfl rfl)
  · split at h
    · exact absurd h (by simp)
    · split at h
      · exact absurd h (by simp)
      · rename_i hmao
        simp only [Except.ok.injEq, Prod.mk.injEq] at h
        rw [← h.1]
        exact mao_grows _ _ _ _ _ _ _ hmao
  · split at h
    · simp only [Except.ok.injEq, Prod.mk.injEq] at h
      rw [← h.1]
      exact grows_refl s0
    · split at h
      · simp only [Except.ok.injEq, Prod.mk.injEq] at h
        rw [← h.1]
        exact grows_refl s0
      · simp only [Except.ok.injEq, Prod.mk.injEq] at h
        rw [← h.1]
        exact grows_refl s0

/-- The closing commit writes grow the ledger. -/
theorem commit_writes_grows (s3 : Sim) (ctx : OCtx) (pre : BExpr)
    (cnt : DiscoveryCount) :
    ledger_grows s3 (commit_writes s3 ctx pre cnt) := by
  exact grows_trans
    (grows_update_dp s3 ctx.node_id
      (fun tr => { tr with last_attack := (attack_insert tr.last_attack
        (ctx.vulnerability_id, ctx.local_or_remote, pre, true) ctx.now) })
      (fun tr i hi => hi))
    (grows_of_parts rfl rfl rfl)

/-- The commit phase grows the ledger. -/
theorem commit_phase_grows (s0 : Sim) (ctx : OCtx) (cand : Cand) (pre : BExpr)
    (rs : String) (lo : Outcome) (s1 : Sim) (flag : Bool) (res : ActionResult)
    (h : commit_phase s0 ctx cand pre rs lo = .ok (s1, flag, res)) :
    ledger_grows s0 s1 := by
  unfold commit_phase at h
  split at h
  · exact absurd h (by simp)
  · rename_i sA rA hadj
    split at h
    · exact absurd h (by simp)
    · rename_i sB cntB hmde
      split at h
      · exact absurd h (by simp)
      · rename_i sC kC hprobe
        split at h
        · exact absurd h (by simp)
        · split at h
          · simp only [Except.ok.injEq, Prod.mk.injEq] at h
            rw [← h.1]
            exact grows_trans (grows_trans (grows_trans
              (commit_adjust_grows s0 ctx cand.outcome lo (-ctx.cost) sA rA
                hadj)
              (mde_grows sA ctx.node_id cand.outcome true sB cntB hmde))
              (commit_probe_grows sB ctx.node_id cand.outcome lo sC kC
                hprobe))
              (commit_writes_grows sC ctx pre cntB)
          · exact absurd h (by simp)

/-- The failure return grows the ledger (it returns the loop state as is). -/
theorem failure_path_grows (s : Sim) (ctx : OCtx) (cand : Cand) (pre : BExpr)
    (rs : String) (s1 : Sim) (flag : Bool) (res : ActionResult)
    (h : failure_path s ctx cand pre rs = .ok (s1, flag, res)) :
    ledger_grows s s1 := by
  rw [(failure_path_state s ctx cand pre rs s1 flag res h).1]
  exact grows_refl s

/-- The selection dispatch grows the ledger. -/
theorem po_dispatch_grows (ctx : OCtx) (v : Vulnerability) (tie : Nat)
    (st : LoopSt) (s1 : Sim) (flag : Bool) (res : ActionResult)
    (h : po_dispatch ctx v tie st = .ok (s1, flag, res)) :
    ledger_grows st.sim s1 := by
  unfold po_dispatch at h
  split at h
  · exact absurd h (by simp)
  · split at h
    · exact absurd h (by simp)
    · split at h
      · exact absurd h (by simp)
      · split at h
        all_goals first
          | (split at h
             · exact failure_path_grows _ _ _ _ _ _ _ _ h
             · split at h
               · exact absurd h (by simp)
               · exact commit_phase_grows _ _ _ _ _ _ _ _ _ h)
          | exact absurd h (by simp)

/-- `__process_outcome` grows the ledger. -/
theorem process_outcome_grows (s : Sim) (et : VulnerabilityType)
    (vid nid : String) (lor : Bool) (fp : Int) (thr : Bool)
    (profile : Option Profile) (tie now : Nat) (s1 : Sim) (flag : Bool)
    (res : ActionResult)
    (h : process_outcome s et vid nid lor fp thr profile tie now =
      .ok (s1, flag, res)) : ledger_grows s s1 := by
  unfold process_outcome at h
  split at h
  · exact absurd h (by simp)
  · split at h
    · simp only [Except.ok.injEq, Prod.mk.injEq] at h
      exact h.1 ▸ grows_refl s
    · split at h
      · split at h
        · exact absurd h (by simp)
        · simp only [Except.ok.injEq, Prod.mk.injEq] at h
          exact h.1 ▸ grows_refl s
      · split at h
        · exact absurd h (by simp)
        · split at h
          · exact absurd h (by simp)
          · rename_i st hloop
            exact grows_trans (process_branches_grows _ _ _ _ hloop)
              (po_dispatch_grows _ _ _ _ _ _ _ h)

/-- `exploit_local_vulnerability` grows the ledger. -/
theorem exploit_local_grows (s : Sim) (nid vid : String) (thr : Bool)
    (tie now : Nat) (s1 : Sim) (res : ActionResult)
    (h : exploit_local_vulnerability s nid vid thr tie now = .ok (s1, res)) :
    ledger_grows s s1 := by
  unfold exploit_local_vulnerability at h
  split at h
  · exact absurd h (by simp)
  · split at h
    · exact absurd h (by simp)
    · split at h
      · split at h
        · exact absurd h (by simp)
        · simp only [Except.ok.injEq, Prod.mk.injEq] at h
          exact h.1 ▸ grows_refl s
      · split at h
        · exact absurd h (by simp)
        · rename_i sA flagA resA hpo
          simp only [Except.ok.injEq, Prod.mk.injEq] at h
          rw [← h.1]
          exact process_outcome_grows _ _ _ _ _ _ _ _ _ _ sA flagA resA hpo

/-- `exploit_remote_vulnerability` grows the ledger. -/
theorem exploit_remote_grows (s : Sim) (nid tgt : String) (p : Profile)
    (vid : String) (thr : Bool) (tie now : Nat) (s1 : Sim)
    (res : ActionResult)
    (h : exploit_remote_vulnerability s nid tgt p vid thr tie now =
      .ok (s1, res)) : ledger_grows s s1 := by
  unfold exploit_remote_vulnerability at h
  split at h
  · exact absurd h (by simp)
  · split at h
    · exact absurd h (by simp)
    · split at h
      · exact absurd h (by simp)
      · split at h
        · split at h
          · exact absurd h (by simp)
          · simp only [Except.ok.injEq, Prod.mk.injEq] at h
            exact h.1 ▸ grows_refl s
        · split at h
          · split at h
            · exact absurd h (by simp)
            · simp only [Except.ok.injEq, Prod.mk.injEq] at h
              exact h.1 ▸ grows_refl s
          · split at h
            · exact absurd h (by simp)
            · rename_i sA flagA resA hpo
              simp only [Except.ok.injEq, Prod.mk.injEq] at h
              rw [← h.1]
              refine grows_trans
                (process_outcome_grows _ _ _ _ _ _ _ _ _ _ sA flagA resA hpo)
                ?_
              split
              · exact grows_of_parts rfl rfl rfl
              · exact grows_refl sA

set_option maxHeartbeats 2000000 in
/-- `connect_to_remote_machine` grows the ledger. -/
theorem connect_grows (s : Sim) (src tgt port cred : String) (thr : Bool)
    (now : Nat) (s1 : Sim) (res : ActionResult)
    (h : connect_to_remote_machine s src tgt port cred thr now =
      .ok (s1, res)) : ledger_grows s s1 := by
  delta connect_to_remote_machine at h
  repeat' split at h
  all_goals
    first
      | (simp only [Except.ok.injEq, Prod.mk.injEq] at h
         exact h.1 ▸ grows_refl s)
      | exact Except.noConfusion h
      | (unfold connect_success at h
         split at h
         · exact absurd h (by simp)
         · rename_i sA hA hmao
           split at h
           · simp only [Except.ok.injEq, Prod.mk.injEq] at h
             rw [← h.1]
             exact mao_grows _ _ _ _ _ _ _ hmao
           · simp only [Except.ok.injEq, Prod.mk.injEq] at h
             rw [← h.1]
             exact grows_trans (mao_grows _ _ _ _ _ _ _ hmao)
               (grows_trans (ensure_tracked_grows sA tgt)
                 (grows_of_parts rfl rfl rfl)))

/-- One attacker step grows the ledger. -/
theorem step_action_grows (s : Sim) (a : AAction) :
    ledger_grows s (step_action s a) := by
  cases a with
  | local_exploit n v th tie now =>
    simp only [step_action]
    split
    · rename_i r hr
      exact exploit_local_grows s n v th tie now r.1 r.2 hr
    · exact grows_refl s
  | remote_exploit n t p v th tie now =>
    simp only [step_action]
    split
    · rename_i r hr
      exact exploit_remote_grows s n t p v th tie now r.1 r.2 hr
    · exact grows_refl s
  | connect a b port cred th now =>
    simp only [step_action]
    split
    · rename_i r hr
      exact connect_grows s a b port cred th now r.1 r.2 hr
    · exact grows_refl s

/-- C8 (confirmed): over any sequence of attacker actions of one episode, the
discovery ledger only grows — a discovered node is never removed, each node's
discovered-property set, the gathered-credential set and the gathered-profile
collection are non-decreasing. -/
theorem C8_monotone_discovery (s : Sim) (acts : List AAction) :
    ledger_grows s (run_actions s acts) := by
  induction acts generalizing s with
  | nil => exact grows_refl s
  | cons a rest ih =>
    exact grows_trans (step_action_grows s a) (ih (step_action s a))
